import Mathlib

/-!
Verification development for the InfraAI VM telemetry pipeline.

The definitions below are a shallow embedding of the core pipeline:
`backend/preprocessing/preprocessing_vm_data.py` (raw-record preprocessing and
grouped aggregation) and `backend/analysis/analysis_vm_data.py` (the seven
analysis passes).  Floating-point arithmetic of the source is embedded as exact
rational arithmetic (`ℚ`); pandas missing values (`NaN`) are embedded as
`Option`; Python strings are embedded as `String` or `List Char`.  Irrational
float results (sample standard deviations, Pearson correlations) are carried
symbolically: `J.sqrtNum v` denotes the float `sqrt v` and `J.corr n d` denotes
`n / sqrt d`, keeping every definition executable.
-/

namespace InfraAI

/-! ### Rational list statistics (pandas reductions over non-null values) -/

/-- Mean of a list of rationals, `Series.mean`: sum divided by length. -/
def mean (xs : List ℚ) : ℚ := xs.sum / xs.length

/-- Minimum of a list, `Series.min` (0 on the empty list, which the code never
hits because every group is nonempty). -/
def listMin : List ℚ → ℚ
  | [] => 0
  | x :: t => t.foldl min x

/-- Maximum of a list, `Series.max`. -/
def listMax : List ℚ → ℚ
  | [] => 0
  | x :: t => t.foldl max x

/-- Insert into an ascending-sorted list (stable). -/
def insertAsc (x : ℚ) : List ℚ → List ℚ
  | [] => [x]
  | y :: ys => if x ≤ y then x :: y :: ys else y :: insertAsc x ys

/-- Ascending insertion sort of rationals. -/
def sortAsc (xs : List ℚ) : List ℚ := xs.foldr insertAsc []

/-- Median with linear interpolation, `Series.median`. -/
def median (xs : List ℚ) : ℚ :=
  let s := sortAsc xs
  let n := s.length
  if n % 2 = 1 then s.getD (n / 2) 0
  else (s.getD (n / 2 - 1) 0 + s.getD (n / 2) 0) / 2

/-- Sample variance (`ddof = 1`).  `Series.std` of the source is the square
root of this value; it is carried symbolically via `J.sqrtNum`. -/
def sampleVar (xs : List ℚ) : ℚ :=
  ((xs.map (fun x => (x - mean xs) ^ 2)).sum) / ((xs.length : ℚ) - 1)

/-- Linear-interpolation quantile of an ascending-sorted list,
`Series.quantile(q)`: position `h = q*(n-1)`, result
`s[⌊h⌋] + (h - ⌊h⌋) * (s[⌊h⌋+1] - s[⌊h⌋])`. -/
def quantileSorted (s : List ℚ) (q : ℚ) : ℚ :=
  let n := s.length
  let h := q * ((n : ℚ) - 1)
  let i := (⌊h⌋).toNat
  let lo := s.getD i 0
  let hi := s.getD (i + 1) lo
  lo + (h - (i : ℚ)) * (hi - lo)

/-! ### Generic list machinery shared by the embedding -/

/-- Stable insertion by a boolean "may go before" relation. -/
def insertBy {α : Type} (le : α → α → Bool) (x : α) : List α → List α
  | [] => [x]
  | y :: ys => if le x y then x :: y :: ys else y :: insertBy le x ys

/-- Stable insertion sort by a boolean relation (embeds the pandas sorts). -/
def sortBy {α : Type} (le : α → α → Bool) (l : List α) : List α :=
  l.foldr (insertBy le) []

/-- First-occurrence deduplication, `Series.unique`: keeps the first
occurrence of each value, in input order.  `seen` accumulates values already
emitted. -/
def firstOccAux {α : Type} [DecidableEq α] (seen : List α) : List α → List α
  | [] => []
  | x :: xs => if x ∈ seen then firstOccAux seen xs else x :: firstOccAux (x :: seen) xs

/-- First-occurrence deduplication of a list (pandas `unique`). -/
def firstOcc {α : Type} [DecidableEq α] (l : List α) : List α := firstOccAux [] l

/-! ### Character/string utilities (Python `str` operations)

Python string comparison orders by code point; `listCharLtB` embeds it for the
pandas string sorts. -/

/-- Strict code-point lexicographic order on character lists. -/
def listCharLtB : List Char → List Char → Bool
  | [], [] => false
  | [], _ :: _ => true
  | _ :: _, [] => false
  | a :: as, b :: bs =>
    if a.toNat < b.toNat then true
    else if b.toNat < a.toNat then false
    else listCharLtB as bs

/-- Non-strict code-point order on strings. -/
def strLeB (a b : String) : Bool := !(listCharLtB b.data a.data)

/-- Python `str.lower` restricted to ASCII (all SKU match tokens are ASCII). -/
def lowerL (s : List Char) : List Char := s.map Char.toLower

/-- Does `marker` occur at the head of `s`? -/
def leadsWith : List Char → List Char → Bool
  | [], _ => true
  | _ :: _, [] => false
  | a :: as, b :: bs => a == b && leadsWith as bs

/-- Python's `needle in hay` substring test. -/
def containsSub (needle : List Char) : List Char → Bool
  | [] => leadsWith needle []
  | c :: t => leadsWith needle (c :: t) || containsSub needle t

/-! ### Regex extraction from `resource_global_name`

`Series.str.extract` with patterns `/instances/(\d+)`, `/zones/([^/]+)/` and
`/projects/([^/]+)/`: scan left to right for the first position where the
literal marker matches and the capture succeeds; yield NaN (`none`) when no
position matches. -/

/-- Capture for `(\d+)`: the maximal leading digit run, failing if empty. -/
def capDigits (rest : List Char) : Option (List Char) :=
  let ds := rest.takeWhile Char.isDigit
  if ds.isEmpty then none else some ds

/-- Capture for `([^/]+)/`: the maximal leading run of non-`/` characters,
which must be nonempty and followed by `/`. -/
def capSeg (rest : List Char) : Option (List Char) :=
  let ds := rest.takeWhile (fun c => !(c == '/'))
  if ds.isEmpty then none
  else
    match rest.drop ds.length with
    | '/' :: _ => some ds
    | _ => none

/-- Left-to-right regex scan: at each position try `marker` followed by the
capture `cap`; on failure resume at the next position. -/
def scanFor (marker : List Char) (cap : List Char → Option (List Char)) :
    List Char → Option (List Char)
  | [] => none
  | c :: t =>
    if leadsWith marker (c :: t) then
      match cap ((c :: t).drop marker.length) with
      | some r => some r
      | none => scanFor marker cap t
    else scanFor marker cap t

/-- `df['resource_global_name'].str.extract(r'/instances/(\d+)')`. -/
def extract_instance_id (s : List Char) : Option (List Char) :=
  scanFor "/instances/".data capDigits s

/-- `df['resource_global_name'].str.extract(r'/zones/([^/]+)/')`. -/
def extract_zone (s : List Char) : Option (List Char) :=
  scanFor "/zones/".data capSeg s

/-- `df['resource_global_name'].str.extract(r'/projects/([^/]+)/')`. -/
def extract_project_id (s : List Char) : Option (List Char) :=
  scanFor "/projects/".data capSeg s

/-! ### SKU classification -/

/-- `categorize_sku` of `preprocessing_vm_data.py`: case-insensitive substring
rules, first match winning. -/
def categorize_sku (sku_description : List Char) : String :=
  let sku_lower := lowerL sku_description
  if containsSub "vm state".data sku_lower || containsSub "ssd".data sku_lower then
    "Storage"
  else if containsSub "network".data sku_lower && containsSub "inter zone".data sku_lower then
    "Network_InterZone"
  else if containsSub "network".data sku_lower && containsSub "intra zone".data sku_lower then
    "Network_IntraZone"
  else if containsSub "network".data sku_lower && containsSub "google services".data sku_lower then
    "Network_GoogleServices"
  else if containsSub "network".data sku_lower then
    "Network_Other"
  else
    "Other"

/-! ### Data model -/

/-- One raw telemetry sample (§3 RawEvent).  The `timestamp` has already been
parsed with the fixed `DD-MM-YYYY HH:MM` format; `date` is the derived calendar
date, encoded as an ordinal so that the chronological order and the ISO-string
order coincide.  The derived `hour` and `day_of_week` columns are dropped by
the aggregation and are not modelled. -/
structure RawEvent where
  date : ℕ
  resource_global_name : List Char
  cpu_utilization : ℚ
  memory_used_bytes : ℚ
  disk_read_bytes : ℚ
  disk_write_bytes : ℚ
  ingress_bytes : ℚ
  egress_bytes : ℚ
  uptime_fraction : ℚ
  cost_usd : ℚ
  sku_description : List Char
deriving DecidableEq, Repr

/-- One preprocessed (pre-grouping) row: the derived features of
`preprocess_vm_data` before the `groupby`. -/
structure ProcRow where
  date : ℕ
  instance_id : Option (List Char)
  zone : Option (List Char)
  project_id : Option (List Char)
  cpu_utilization : ℚ
  memory_used_gb : ℚ
  disk_read_bytes : ℚ
  disk_write_bytes : ℚ
  ingress_bytes : ℚ
  egress_bytes : ℚ
  network_total_bytes : ℚ
  disk_total_bytes : ℚ
  uptime_fraction : ℚ
  cost_usd : ℚ
  cost_per_cpu : ℚ
  sku_category : String
deriving DecidableEq, Repr

/-- Derived-feature computation of `preprocess_vm_data` (lines 26-52). -/
def toProcRow (e : RawEvent) : ProcRow :=
  { date := e.date
    instance_id := extract_instance_id e.resource_global_name
    zone := extract_zone e.resource_global_name
    project_id := extract_project_id e.resource_global_name
    cpu_utilization := e.cpu_utilization
    memory_used_gb := e.memory_used_bytes / 1024 ^ 3
    disk_read_bytes := e.disk_read_bytes
    disk_write_bytes := e.disk_write_bytes
    ingress_bytes := e.ingress_bytes
    egress_bytes := e.egress_bytes
    network_total_bytes := e.ingress_bytes + e.egress_bytes
    disk_total_bytes := e.disk_read_bytes + e.disk_write_bytes
    uptime_fraction := e.uptime_fraction
    cost_usd := e.cost_usd
    cost_per_cpu := e.cost_usd / (e.cpu_utilization + 1 / 1000)
    sku_category := categorize_sku e.sku_description }

/-- The grouping key `(date, instance_id, project_id, zone)`; `groupby` is
called with `dropna=False`, so `none` components form their own groups. -/
structure GroupKey where
  date : ℕ
  instance_id : Option (List Char)
  project_id : Option (List Char)
  zone : Option (List Char)
deriving DecidableEq, Repr

/-- Grouping key of a preprocessed row. -/
def rowKey (r : ProcRow) : GroupKey := ⟨r.date, r.instance_id, r.project_id, r.zone⟩

/-- One aggregated per-(date, instance, project, zone) output row of
`preprocess_vm_data` (§3 AggregateRecord).  The metric columns are `Option ℚ`
because the analyzer accepts aggregate tables with missing values; the rows
produced by `preprocess_vm_data` itself always carry `some`.  The two sample
standard-deviation columns (`cpu_utilization_std`, `memory_used_gb_std`) are
irrational floats that no downstream consumer reads and are not modelled. -/
structure AggRow where
  date : ℕ
  instance_id : Option (List Char)
  project_id : Option (List Char)
  zone : Option (List Char)
  cpu_utilization_mean : Option ℚ
  cpu_utilization_min : Option ℚ
  cpu_utilization_max : Option ℚ
  memory_used_gb_mean : Option ℚ
  memory_used_gb_min : Option ℚ
  memory_used_gb_max : Option ℚ
  disk_read_bytes_sum : Option ℚ
  disk_read_bytes_mean : Option ℚ
  disk_write_bytes_sum : Option ℚ
  disk_write_bytes_mean : Option ℚ
  ingress_bytes_sum : Option ℚ
  ingress_bytes_mean : Option ℚ
  egress_bytes_sum : Option ℚ
  egress_bytes_mean : Option ℚ
  network_total_bytes_sum : Option ℚ
  network_total_bytes_mean : Option ℚ
  disk_total_bytes_sum : Option ℚ
  disk_total_bytes_mean : Option ℚ
  uptime_fraction_mean : Option ℚ
  uptime_fraction_min : Option ℚ
  uptime_fraction_max : Option ℚ
  cost_usd_sum : Option ℚ
  cost_usd_mean : Option ℚ
  cost_usd_max : Option ℚ
  cost_per_cpu_mean : Option ℚ
  sku_category : String
deriving DecidableEq, Repr

/-- Grouping key of an aggregated row. -/
def aggKey (a : AggRow) : GroupKey := ⟨a.date, a.instance_id, a.project_id, a.zone⟩

/-- The rows of one group. -/
def groupRows (rows : List ProcRow) (k : GroupKey) : List ProcRow :=
  rows.filter (fun r => decide (rowKey r = k))

/-- Pandas `Series.mode()` on strings: the values of maximal multiplicity,
returned sorted ascending (by code point). -/
def pandasStrModes (xs : List String) : List String :=
  sortBy strLeB
    ((firstOcc xs).filter (fun v => xs.all (fun w => xs.count w ≤ xs.count v)))

/-- The `sku_category` reduction of the `agg` dict:
`lambda x: x.mode()[0] if len(x.mode()) > 0 else x.iloc[0]`. -/
def sku_category_agg (xs : List String) : String :=
  match pandasStrModes xs with
  | m :: _ => m
  | [] => (xs.head?).getD ""

/-- The `agg` reduction of `preprocess_vm_data` (lines 55-68) for one group. -/
def aggregate (rows : List ProcRow) (k : GroupKey) : AggRow :=
  let g := groupRows rows k
  { date := k.date
    instance_id := k.instance_id
    project_id := k.project_id
    zone := k.zone
    cpu_utilization_mean := some (mean (g.map (·.cpu_utilization)))
    cpu_utilization_min := some (listMin (g.map (·.cpu_utilization)))
    cpu_utilization_max := some (listMax (g.map (·.cpu_utilization)))
    memory_used_gb_mean := some (mean (g.map (·.memory_used_gb)))
    memory_used_gb_min := some (listMin (g.map (·.memory_used_gb)))
    memory_used_gb_max := some (listMax (g.map (·.memory_used_gb)))
    disk_read_bytes_sum := some ((g.map (·.disk_read_bytes)).sum)
    disk_read_bytes_mean := some (mean (g.map (·.disk_read_bytes)))
    disk_write_bytes_sum := some ((g.map (·.disk_write_bytes)).sum)
    disk_write_bytes_mean := some (mean (g.map (·.disk_write_bytes)))
    ingress_bytes_sum := some ((g.map (·.ingress_bytes)).sum)
    ingress_bytes_mean := some (mean (g.map (·.ingress_bytes)))
    egress_bytes_sum := some ((g.map (·.egress_bytes)).sum)
    egress_bytes_mean := some (mean (g.map (·.egress_bytes)))
    network_total_bytes_sum := some ((g.map (·.network_total_bytes)).sum)
    network_total_bytes_mean := some (mean (g.map (·.network_total_bytes)))
    disk_total_bytes_sum := some ((g.map (·.disk_total_bytes)).sum)
    disk_total_bytes_mean := some (mean (g.map (·.disk_total_bytes)))
    uptime_fraction_mean := some (mean (g.map (·.uptime_fraction)))
    uptime_fraction_min := some (listMin (g.map (·.uptime_fraction)))
    uptime_fraction_max := some (listMax (g.map (·.uptime_fraction)))
    cost_usd_sum := some ((g.map (·.cost_usd)).sum)
    cost_usd_mean := some (mean (g.map (·.cost_usd)))
    cost_usd_max := some (listMax (g.map (·.cost_usd)))
    cost_per_cpu_mean := some (mean (g.map (·.cost_per_cpu)))
    sku_category := sku_category_agg (g.map (·.sku_category)) }

/-- Non-strict order on optional instance ids for the output sort: pandas
`sort_values` places NaN last. -/
def optIdLe (a b : Option (List Char)) : Bool :=
  match a, b with
  | none, none => true
  | none, some _ => false
  | some _, none => true
  | some x, some y => !(listCharLtB y x)

/-- The output order `sort_values(['date', 'instance_id'])` (ascending,
stable; the serialized ISO date strings order exactly as the date ordinals). -/
def outRowLe (a b : AggRow) : Bool :=
  if a.date < b.date then true
  else if b.date < a.date then false
  else optIdLe a.instance_id b.instance_id

/-- `preprocess_vm_data` (without the optional CSV side effect): derive
features, group by `(date, instance_id, project_id, zone)` with
`dropna=False`, aggregate each group, and sort by `(date, instance_id)`. -/
def preprocess_vm_data (events : List RawEvent) : List AggRow :=
  let rows := events.map toProcRow
  let keys := firstOcc (rows.map rowKey)
  sortBy outRowLe (keys.map (aggregate rows))

/-! ### JSON-like report values

The analyzer builds nested Python dicts that the API serializes to JSON.
`J` embeds them.  `J.sqrtNum v` denotes the float `sqrt v` (sample standard
deviations) and `J.corr n d` denotes `n / sqrt d` with `d > 0` (Pearson
correlations); both keep the embedding exact and executable. -/

inductive J where
  | num (q : ℚ)
  | sqrtNum (q : ℚ)
  | corr (n d : ℚ)
  | nan
  | str (s : String)
  | arr (xs : List J)
  | obj (fields : List (String × J))

/-- Keys of an object value (empty on non-objects). -/
def jKeys : J → List String
  | .obj fields => fields.map Prod.fst
  | _ => []

/-- Field lookup in an object value. -/
def objLookup (j : J) (k : String) : Option J :=
  match j with
  | .obj fields => fields.lookup k
  | _ => none

/-- Optional singleton segment of an object under construction: the embedding
of a conditional `d[name] = ...` assignment. -/
def optSeg (name : String) (o : Option J) : List (String × J) :=
  match o with
  | some j => [(name, j)]
  | none => []

/-- The repeated `float(x.std()) if len(x) > 1 else 0.0` idiom. -/
def stdJ (d : List ℚ) : J :=
  if d.length > 1 then J.sqrtNum (sampleVar d) else J.num 0

/-- Python `str(instance_id)` on a possibly-NaN extracted id. -/
def pyStr (i : Option (List Char)) : String :=
  match i with
  | some cs => String.mk cs
  | none => "nan"

/-- Minimum of a list of naturals (dates). -/
def natListMin : List ℕ → ℕ
  | [] => 0
  | x :: t => t.foldl Nat.min x

/-- Maximum of a list of naturals (dates). -/
def natListMax : List ℕ → ℕ
  | [] => 0
  | x :: t => t.foldl Nat.max x

/-! ### Trend analysis (`get_trend_direction`, `get_trend_analysis`) -/

/-- `get_trend_direction` (analysis lines 382-409): split-halves comparison.
The argument is the metric column of the date-sorted instance frame, so
`col.length` is `len(df)` and `col.filterMap id` is `df[metric].dropna()`. -/
def get_trend_direction (col : List (Option ℚ)) : String :=
  if col.length < 2 then "insufficient_data"
  else
    let metric_data := col.filterMap id
    if metric_data.length < 2 then "insufficient_data"
    else
      let mid_point := metric_data.length / 2
      let first_half_mean := mean (metric_data.take mid_point)
      let second_half_mean := mean (metric_data.drop mid_point)
      if first_half_mean = 0 then "stable"
      else
        let pct_change := ((second_half_mean - first_half_mean) / first_half_mean) * 100
        if pct_change > 5 then "increasing"
        else if pct_change < -5 then "decreasing"
        else "stable"

/-- The percent change computed inside `get_trend_direction`, when it is
reached: `none` when the guards bail out (too little data or a zero
first-half mean). -/
def split_halves_pct (col : List (Option ℚ)) : Option ℚ :=
  if col.length < 2 then none
  else
    let metric_data := col.filterMap id
    if metric_data.length < 2 then none
    else
      let mid_point := metric_data.length / 2
      let first_half_mean := mean (metric_data.take mid_point)
      let second_half_mean := mean (metric_data.drop mid_point)
      if first_half_mean = 0 then none
      else some (((second_half_mean - first_half_mean) / first_half_mean) * 100)

/-- One metric entry of the overall (first-versus-last-date) trend block
(analysis lines 230-241): guarded by `first_val != 0` and both endpoints
non-null. -/
def overallMetricEntry (first_val last_val : Option ℚ) : Option J :=
  match first_val, last_val with
  | some f, some l =>
    if f ≠ 0 then
      let pct_change := ((l - f) / f) * 100
      some (J.obj
        [("start_value", J.num f),
         ("end_value", J.num l),
         ("percent_change", J.num pct_change),
         ("trend", J.str (if pct_change > 5 then "increasing"
                          else if pct_change < -5 then "decreasing"
                          else "stable"))])
    else none
  | _, _ => none

/-- Non-null values of one date's group for a column (`groupby('date')`). -/
def dateVals (rows : List AggRow) (proj : AggRow → Option ℚ) (d : ℕ) : List ℚ :=
  ((rows.filter (fun r => decide (r.date = d))).map proj).filterMap id

/-- `groupby('date').agg('mean')` for one date: NaN when no non-null value. -/
def dateMeanAgg (rows : List AggRow) (proj : AggRow → Option ℚ) (d : ℕ) : Option ℚ :=
  let v := dateVals rows proj d
  if v.isEmpty then none else some (mean v)

/-- `groupby('date').agg('sum')` for one date: pandas sums skip nulls and
give 0 on an all-null group. -/
def dateSumAgg (rows : List AggRow) (proj : AggRow → Option ℚ) (d : ℕ) : Option ℚ :=
  some ((dateVals rows proj d).sum)

/-- The date-sorted rows of one instance
(`df[df['instance_id'] == instance_id].sort_values('date')`). -/
def instRowsSorted (rows : List AggRow) (i : Option (List Char)) : List AggRow :=
  sortBy (fun a b => decide (a.date ≤ b.date))
    (rows.filter (fun r => decide (r.instance_id = i)))

/-- Per-instance CPU block (analysis lines 261-271). -/
def cpuTrendEntry (idf : List AggRow) : Option J :=
  let col := idf.map (·.cpu_utilization_mean)
  let d := col.filterMap id
  if d.isEmpty then none
  else some (J.obj
    [("mean", J.num (mean d)),
     ("median", J.num (median d)),
     ("min", J.num (listMin d)),
     ("max", J.num (listMax d)),
     ("std", stdJ d),
     ("trend", J.str (get_trend_direction col))])

/-- Per-instance memory block (analysis lines 274-284). -/
def memoryTrendEntry (idf : List AggRow) : Option J :=
  let col := idf.map (·.memory_used_gb_mean)
  let d := col.filterMap id
  if d.isEmpty then none
  else some (J.obj
    [("mean", J.num (mean d)),
     ("median", J.num (median d)),
     ("min", J.num (listMin d)),
     ("max", J.num (listMax d)),
     ("std", stdJ d),
     ("trend", J.str (get_trend_direction col))])

/-- Per-instance cost block (analysis lines 287-298). -/
def costTrendEntry (idf : List AggRow) : Option J :=
  let col := idf.map (·.cost_usd_sum)
  let d := col.filterMap id
  if d.isEmpty then none
  else some (J.obj
    [("total", J.num d.sum),
     ("mean_daily", J.num (mean d)),
     ("median_daily", J.num (median d)),
     ("min_daily", J.num (listMin d)),
     ("max_daily", J.num (listMax d)),
     ("std", stdJ d),
     ("trend", J.str (get_trend_direction col))])

/-- Per-instance uptime block (analysis lines 301-311). -/
def uptimeTrendEntry (idf : List AggRow) : Option J :=
  let col := idf.map (·.uptime_fraction_mean)
  let d := col.filterMap id
  if d.isEmpty then none
  else some (J.obj
    [("mean", J.num (mean d)),
     ("median", J.num (median d)),
     ("min", J.num (listMin d)),
     ("max", J.num (listMax d)),
     ("std", stdJ d),
     ("trend", J.str (get_trend_direction col))])

/-- Per-instance network-traffic block (analysis lines 314-324): gigabytes. -/
def networkTrendEntry (idf : List AggRow) : Option J :=
  let col := idf.map (·.network_total_bytes_sum)
  let d := col.filterMap id
  if d.isEmpty then none
  else some (J.obj
    [("total_gb", J.num (d.sum / 1024 ^ 3)),
     ("mean_daily_gb", J.num (mean d / 1024 ^ 3)),
     ("median_daily_gb", J.num (median d / 1024 ^ 3)),
     ("min_daily_gb", J.num (listMin d / 1024 ^ 3)),
     ("max_daily_gb", J.num (listMax d / 1024 ^ 3)),
     ("trend", J.str (get_trend_direction col))])

/-- Per-instance disk-read block (analysis lines 327-335). -/
def diskReadTrendEntry (idf : List AggRow) : Option J :=
  let col := idf.map (·.disk_read_bytes_sum)
  let d := col.filterMap id
  if d.isEmpty then none
  else some (J.obj
    [("total_gb", J.num (d.sum / 1024 ^ 3)),
     ("mean_daily_gb", J.num (mean d / 1024 ^ 3)),
     ("median_daily_gb", J.num (median d / 1024 ^ 3)),
     ("trend", J.str (get_trend_direction col))])

/-- Per-instance disk-write block (analysis lines 338-346). -/
def diskWriteTrendEntry (idf : List AggRow) : Option J :=
  let col := idf.map (·.disk_write_bytes_sum)
  let d := col.filterMap id
  if d.isEmpty then none
  else some (J.obj
    [("total_gb", J.num (d.sum / 1024 ^ 3)),
     ("mean_daily_gb", J.num (mean d / 1024 ^ 3)),
     ("median_daily_gb", J.num (median d / 1024 ^ 3)),
     ("trend", J.str (get_trend_direction col))])

/-- Per-instance ingress block (analysis lines 349-356). -/
def ingressTrendEntry (idf : List AggRow) : Option J :=
  let col := idf.map (·.ingress_bytes_sum)
  let d := col.filterMap id
  if d.isEmpty then none
  else some (J.obj
    [("total_gb", J.num (d.sum / 1024 ^ 3)),
     ("mean_daily_gb", J.num (mean d / 1024 ^ 3)),
     ("trend", J.str (get_trend_direction col))])

/-- Per-instance egress block (analysis lines 359-366). -/
def egressTrendEntry (idf : List AggRow) : Option J :=
  let col := idf.map (·.egress_bytes_sum)
  let d := col.filterMap id
  if d.isEmpty then none
  else some (J.obj
    [("total_gb", J.num (d.sum / 1024 ^ 3)),
     ("mean_daily_gb", J.num (mean d / 1024 ^ 3)),
     ("trend", J.str (get_trend_direction col))])

/-- Per-instance cost-efficiency block (analysis lines 369-378). -/
def costEffTrendEntry (idf : List AggRow) : Option J :=
  let col := idf.map (·.cost_per_cpu_mean)
  let d := col.filterMap id
  if d.isEmpty then none
  else some (J.obj
    [("mean_cost_per_cpu", J.num (mean d)),
     ("median_cost_per_cpu", J.num (median d)),
     ("min_cost_per_cpu", J.num (listMin d)),
     ("max_cost_per_cpu", J.num (listMax d)),
     ("trend", J.str (get_trend_direction col))])

/-- The ten conditional metric entries of one instance's trend block, in code
order (analysis lines 260-378). -/
def per_instance_trend_entries (idf : List AggRow) : List (String × J) :=
  optSeg "cpu_utilization" (cpuTrendEntry idf) ++
  optSeg "memory_usage_gb" (memoryTrendEntry idf) ++
  optSeg "cost" (costTrendEntry idf) ++
  optSeg "uptime_fraction" (uptimeTrendEntry idf) ++
  optSeg "network_traffic" (networkTrendEntry idf) ++
  optSeg "disk_read" (diskReadTrendEntry idf) ++
  optSeg "disk_write" (diskWriteTrendEntry idf) ++
  optSeg "network_ingress" (ingressTrendEntry idf) ++
  optSeg "network_egress" (egressTrendEntry idf) ++
  optSeg "cost_efficiency" (costEffTrendEntry idf)

/-- `get_trend_analysis` (analysis lines 197-380): overall first-versus-last
date block plus per-instance blocks. -/
def get_trend_analysis (rows : List AggRow) : J :=
  let dates := sortBy (fun a b => decide (a ≤ b)) (firstOcc (rows.map (·.date)))
  let overallSeg : List (String × J) :=
    if 2 ≤ dates.length then
      match dates.head?, dates.getLast? with
      | some dfirst, some dlast =>
        [("overall", J.obj
          (("date_range", J.obj
             [("start_date", J.str (toString dfirst)),
              ("end_date", J.str (toString dlast))]) ::
           (optSeg "CPU Utilization"
              (overallMetricEntry (dateMeanAgg rows (·.cpu_utilization_mean) dfirst)
                (dateMeanAgg rows (·.cpu_utilization_mean) dlast)) ++
            optSeg "Memory Usage (GB)"
              (overallMetricEntry (dateMeanAgg rows (·.memory_used_gb_mean) dfirst)
                (dateMeanAgg rows (·.memory_used_gb_mean) dlast)) ++
            optSeg "Daily Cost"
              (overallMetricEntry (dateSumAgg rows (·.cost_usd_sum) dfirst)
                (dateSumAgg rows (·.cost_usd_sum) dlast)) ++
            optSeg "Uptime Fraction"
              (overallMetricEntry (dateMeanAgg rows (·.uptime_fraction_mean) dfirst)
                (dateMeanAgg rows (·.uptime_fraction_mean) dlast)) ++
            optSeg "Total Network Traffic"
              (overallMetricEntry (dateSumAgg rows (·.network_total_bytes_sum) dfirst)
                (dateSumAgg rows (·.network_total_bytes_sum) dlast)))))]
      | _, _ => []
    else []
  let perInstSeg : List (String × J) :=
    [("per_instance", J.obj
      ((firstOcc (rows.map (·.instance_id))).filterMap (fun i =>
        let idf := instRowsSorted rows i
        if idf.isEmpty then none
        else some (pyStr i, J.obj
          (("date_range", J.obj
             [("start_date", J.str (toString (natListMin (idf.map (·.date))))),
              ("end_date", J.str (toString (natListMax (idf.map (·.date))))),
              ("total_days", J.num idf.length)]) ::
           per_instance_trend_entries idf)))))]
  J.obj (overallSeg ++ perInstSeg)

/-! ### Anomaly detection (`detect_anomalies`, analysis lines 618-666) -/

/-- One reported metric anomaly block: count, offending dates, offending
values, and the IQR bounds. -/
structure AnomalyEntry where
  count : ℕ
  dates : List ℕ
  values : List ℚ
  lower_bound : ℚ
  upper_bound : ℚ
deriving DecidableEq, Repr

/-- The row filter `(x < lower_bound) | (x > upper_bound)`: a NaN cell
compares false on both sides. -/
def outsideBounds (lower_bound upper_bound : ℚ) : Option ℚ → Bool
  | some x => decide (x < lower_bound) || decide (upper_bound < x)
  | none => false

/-- The per-metric IQR anomaly scan of `detect_anomalies`: needs more than 3
non-null observations; bounds `[Q1 - 1.5*IQR, Q3 + 1.5*IQR]`; reports only
when some row falls strictly outside. -/
def metricAnomaly (idf : List AggRow) (proj : AggRow → Option ℚ) : Option AnomalyEntry :=
  let metric_data := idf.filterMap proj
  if metric_data.length > 3 then
    let s := sortAsc metric_data
    let q1 := quantileSorted s (1 / 4)
    let q3 := quantileSorted s (3 / 4)
    let iqr := q3 - q1
    let lower_bound := q1 - 3 / 2 * iqr
    let upper_bound := q3 + 3 / 2 * iqr
    let flagged := idf.filter (fun r => outsideBounds lower_bound upper_bound (proj r))
    if flagged.length > 0 then
      some ⟨flagged.length, flagged.map (·.date), flagged.filterMap proj,
            lower_bound, upper_bound⟩
    else none
  else none

/-- The four checked metrics, in the code's dict order. -/
def anomalyMetrics : List (String × (AggRow → Option ℚ)) :=
  [("Cost", (·.cost_usd_sum)),
   ("CPU Utilization", (·.cpu_utilization_mean)),
   ("Memory Usage", (·.memory_used_gb_mean)),
   ("Network Traffic", (·.network_total_bytes_sum))]

/-- The metric entries flagged for one instance's frame. -/
def instanceAnomalies (idf : List AggRow) : List (String × AnomalyEntry) :=
  anomalyMetrics.filterMap (fun m => (metricAnomaly idf m.2).map (fun e => (m.1, e)))

/-- `detect_anomalies`: per-instance IQR outlier report; instances with no
flagged metric are omitted. -/
def detect_anomalies (rows : List AggRow) : List (Option (List Char) × List (String × AnomalyEntry)) :=
  (firstOcc (rows.map (·.instance_id))).filterMap (fun i =>
    let idf := rows.filter (fun r => decide (r.instance_id = i))
    let instance_anomalies := instanceAnomalies idf
    if instance_anomalies.isEmpty then none else some (i, instance_anomalies))

/-! ### Remaining analysis facets -/

/-- Non-null values of a column over a frame (`df[col].dropna()`). -/
def dropnaCol (rows : List AggRow) (proj : AggRow → Option ℚ) : List ℚ :=
  (rows.map proj).filterMap id

/-- `float(series.mean())`: NaN on an all-null column. -/
def jColMean (rows : List AggRow) (proj : AggRow → Option ℚ) : J :=
  let d := dropnaCol rows proj
  if d.isEmpty then J.nan else J.num (mean d)

/-- `float(series.max())`: NaN on an all-null column. -/
def jColMax (rows : List AggRow) (proj : AggRow → Option ℚ) : J :=
  let d := dropnaCol rows proj
  if d.isEmpty then J.nan else J.num (listMax d)

/-- `float(series.min())`: NaN on an all-null column. -/
def jColMin (rows : List AggRow) (proj : AggRow → Option ℚ) : J :=
  let d := dropnaCol rows proj
  if d.isEmpty then J.nan else J.num (listMin d)

/-- `str(series.min())` over the date column ("nan" on an empty frame). -/
def dateMinStr (ds : List ℕ) : String :=
  match ds with
  | [] => "nan"
  | _ :: _ => toString (natListMin ds)

/-- `str(series.max())` over the date column ("nan" on an empty frame). -/
def dateMaxStr (ds : List ℕ) : String :=
  match ds with
  | [] => "nan"
  | _ :: _ => toString (natListMax ds)

/-- `get_instance_summary` (analysis lines 49-69): instance ids, per-instance
record counts (`value_counts`, descending), and global date span. -/
def get_instance_summary (rows : List AggRow) : J :=
  let instances := firstOcc (rows.map (·.instance_id))
  let counts := sortBy (fun a b => decide (b.2 ≤ a.2))
    (instances.map (fun i => (pyStr i, rows.countP (fun r => decide (r.instance_id = i)))))
  J.obj
    [("total_instances", J.num instances.length),
     ("instance_ids", J.arr (sortBy strLeB (instances.map pyStr) |>.map J.str)),
     ("records_per_instance", J.obj (counts.map (fun p => (p.1, J.num p.2)))),
     ("date_range", J.obj
       [("start", J.str (dateMinStr (rows.map (·.date)))),
        ("end", J.str (dateMaxStr (rows.map (·.date)))),
        ("total_days", J.num (firstOcc (rows.map (·.date))).length)])]

/-- The numeric columns of the preprocessed frame, in column order (the two
unmodelled irrational `_std` columns excepted). -/
def numericColumns : List (String × (AggRow → Option ℚ)) :=
  [("cpu_utilization_mean", (·.cpu_utilization_mean)),
   ("cpu_utilization_min", (·.cpu_utilization_min)),
   ("cpu_utilization_max", (·.cpu_utilization_max)),
   ("memory_used_gb_mean", (·.memory_used_gb_mean)),
   ("memory_used_gb_min", (·.memory_used_gb_min)),
   ("memory_used_gb_max", (·.memory_used_gb_max)),
   ("disk_read_bytes_sum", (·.disk_read_bytes_sum)),
   ("disk_read_bytes_mean", (·.disk_read_bytes_mean)),
   ("disk_write_bytes_sum", (·.disk_write_bytes_sum)),
   ("disk_write_bytes_mean", (·.disk_write_bytes_mean)),
   ("ingress_bytes_sum", (·.ingress_bytes_sum)),
   ("ingress_bytes_mean", (·.ingress_bytes_mean)),
   ("egress_bytes_sum", (·.egress_bytes_sum)),
   ("egress_bytes_mean", (·.egress_bytes_mean)),
   ("network_total_bytes_sum", (·.network_total_bytes_sum)),
   ("network_total_bytes_mean", (·.network_total_bytes_mean)),
   ("disk_total_bytes_sum", (·.disk_total_bytes_sum)),
   ("disk_total_bytes_mean", (·.disk_total_bytes_mean)),
   ("uptime_fraction_mean", (·.uptime_fraction_mean)),
   ("uptime_fraction_min", (·.uptime_fraction_min)),
   ("uptime_fraction_max", (·.uptime_fraction_max)),
   ("cost_usd_sum", (·.cost_usd_sum)),
   ("cost_usd_mean", (·.cost_usd_mean)),
   ("cost_usd_max", (·.cost_usd_max)),
   ("cost_per_cpu_mean", (·.cost_per_cpu_mean))]

/-- `get_descriptive_stats` (analysis lines 71-90): per numeric column, over
non-null values; an all-null column is omitted. -/
def get_descriptive_stats (rows : List AggRow) : J :=
  J.obj (numericColumns.filterMap (fun c =>
    let col_data := dropnaCol rows c.2
    if col_data.isEmpty then none
    else some (c.1, J.obj
      [("mean", J.num (mean col_data)),
       ("median", J.num (median col_data)),
       ("std", stdJ col_data),
       ("min", J.num (listMin col_data)),
       ("max", J.num (listMax col_data)),
       ("q25", J.num (quantileSorted (sortAsc col_data) (1 / 4))),
       ("q75", J.num (quantileSorted (sortAsc col_data) (3 / 4)))])))

/-- `get_per_instance_analysis` (analysis lines 92-137). -/
def get_per_instance_analysis (rows : List AggRow) : J :=
  J.obj ((firstOcc (rows.map (·.instance_id))).map (fun i =>
    let instance_df := rows.filter (fun r => decide (r.instance_id = i))
    let cost_data := dropnaCol instance_df (·.cost_usd_sum)
    (pyStr i, J.obj
      ([("total_records", J.num instance_df.length),
        ("date_range", J.obj
          [("start", J.str (dateMinStr (instance_df.map (·.date)))),
           ("end", J.str (dateMaxStr (instance_df.map (·.date))))]),
        ("avg_cpu_utilization", jColMean instance_df (·.cpu_utilization_mean)),
        ("avg_memory_gb", jColMean instance_df (·.memory_used_gb_mean))] ++
       (if cost_data.isEmpty then []
        else [("total_cost", J.num cost_data.sum),
              ("avg_daily_cost", J.num (mean cost_data))]) ++
       [("avg_uptime_fraction", jColMean instance_df (·.uptime_fraction_mean)),
        ("total_network_gb",
          J.num ((dropnaCol instance_df (·.network_total_bytes_sum)).sum / 1024 ^ 3)),
        ("zone", J.str (pyStr ((instance_df.head?).elim none (·.zone)))),
        ("project_id", J.str (pyStr ((instance_df.head?).elim none (·.project_id))))]))))

/-- The fixed candidate metric list of the correlation pass
(analysis lines 144-155); all ten columns exist in the embedded frame. -/
def correlationColumns : List (String × (AggRow → Option ℚ)) :=
  [("cpu_utilization_mean", (·.cpu_utilization_mean)),
   ("memory_used_gb_mean", (·.memory_used_gb_mean)),
   ("disk_read_bytes_sum", (·.disk_read_bytes_sum)),
   ("disk_write_bytes_sum", (·.disk_write_bytes_sum)),
   ("ingress_bytes_sum", (·.ingress_bytes_sum)),
   ("egress_bytes_sum", (·.egress_bytes_sum)),
   ("network_total_bytes_sum", (·.network_total_bytes_sum)),
   ("uptime_fraction_mean", (·.uptime_fraction_mean)),
   ("cost_usd_sum", (·.cost_usd_sum)),
   ("cost_per_cpu_mean", (·.cost_per_cpu_mean))]

/-- Pearson correlation of two columns over pairwise-complete observations,
as the symbolic pair `(n, d)` denoting `n / sqrt d`; the pandas NaN result
(degenerate data), replaced by `fillna(0)`, is `(0, 1)`. -/
def corrPair (rows : List AggRow) (px py : AggRow → Option ℚ) : ℚ × ℚ :=
  let pairs := rows.filterMap (fun r =>
    match px r, py r with
    | some a, some b => some (a, b)
    | _, _ => none)
  let xs := pairs.map Prod.fst
  let ys := pairs.map Prod.snd
  let sxx := ((xs.map (fun a => (a - mean xs) ^ 2)).sum)
  let syy := ((ys.map (fun b => (b - mean ys) ^ 2)).sum)
  let sxy := ((pairs.map (fun p => (p.1 - mean xs) * (p.2 - mean ys))).sum)
  if sxx = 0 ∨ syy = 0 then (0, 1) else (sxy, sxx * syy)

/-- Embed a symbolic correlation value. -/
def corrJ (p : ℚ × ℚ) : J := J.corr p.1 p.2

/-- `abs(corr_value) > 0.7` on a symbolic correlation (`d > 0` throughout). -/
def corrAbsGt07 (p : ℚ × ℚ) : Bool := decide (100 * p.1 ^ 2 > 49 * p.2)

/-- Exact order on symbolic correlation values `n / sqrt d` (`d > 0`). -/
def corrLeB (a b : ℚ × ℚ) : Bool :=
  if a.1 ≤ 0 then
    if 0 ≤ b.1 then true else decide (b.1 ^ 2 * a.2 ≤ a.1 ^ 2 * b.2)
  else
    if b.1 ≤ 0 then false else decide (a.1 ^ 2 * b.2 ≤ b.1 ^ 2 * a.2)

/-- `get_correlation_analysis` (analysis lines 139-195): full matrix
(`to_dict`: column, then row), strong pairs (`|corr| > 0.7`, `i < j`), and the
cost-correlation ranking sorted descending. -/
def get_correlation_analysis (rows : List AggRow) : J :=
  if correlationColumns.length < 2 then J.obj []
  else
    let matrix := J.obj (correlationColumns.map (fun cj =>
      (cj.1, J.obj (correlationColumns.map (fun ci =>
        (ci.1, corrJ (corrPair rows ci.2 cj.2)))))))
    let strong := (correlationColumns.enum).flatMap (fun ic =>
      (correlationColumns.enum).filterMap (fun jc =>
        if ic.1 < jc.1 ∧ corrAbsGt07 (corrPair rows ic.2.2 jc.2.2) then
          some (J.obj
            [("feature1", J.str ic.2.1),
             ("feature2", J.str jc.2.1),
             ("correlation", corrJ (corrPair rows ic.2.2 jc.2.2))])
        else none))
    let cost_series := (correlationColumns.filter (fun c => decide (c.1 ≠ "cost_usd_sum"))).map
      (fun c => (c.1, corrPair rows c.2 (·.cost_usd_sum)))
    let cost_sorted := sortBy (fun a b => corrLeB b.2 a.2) cost_series
    J.obj
      [("correlation_matrix", matrix),
       ("strong_correlations", J.arr strong),
       ("cost_correlations", J.arr (cost_sorted.map (fun p =>
         J.obj [("feature", J.str p.1),
                ("correlation_with_cost", corrJ p.2)])))]

/-- `get_cost_analysis` (analysis lines 411-454). -/
def get_cost_analysis (rows : List AggRow) : J :=
  let cost_data := dropnaCol rows (·.cost_usd_sum)
  let overallSeg : List (String × J) :=
    if cost_data.isEmpty then []
    else
      [("overall", J.obj
        ([("total_cost", J.num cost_data.sum),
          ("average_daily_cost_per_instance", J.num (mean cost_data)),
          ("max_daily_cost", J.num (listMax cost_data)),
          ("min_daily_cost", J.num (listMin cost_data)),
          ("cost_std_deviation", stdJ cost_data),
          ("projected_monthly_cost", J.num (mean cost_data * 30))] ++
         (let cpu_cost_data := dropnaCol rows (·.cost_per_cpu_mean)
          if cpu_cost_data.isEmpty then []
          else [("average_cost_per_cpu_utilization", J.num (mean cpu_cost_data))])))]
  let perInstSeg : List (String × J) :=
    [("per_instance", J.obj
      ((firstOcc (rows.map (·.instance_id))).filterMap (fun i =>
        let instance_df := rows.filter (fun r => decide (r.instance_id = i))
        let d := dropnaCol instance_df (·.cost_usd_sum)
        if d.isEmpty then none
        else some (pyStr i, J.obj
          [("total_cost", J.num d.sum),
           ("avg_daily_cost", J.num (mean d)),
           ("max_daily_cost", J.num (listMax d)),
           ("min_daily_cost", J.num (listMin d))]))))]
  J.obj (overallSeg ++ perInstSeg)

/-- CPU utilization classification thresholds (strict comparisons). -/
def cpuCategory (cpu_mean : ℚ) : String :=
  if cpu_mean > 4 / 5 then "over-utilized"
  else if cpu_mean > 1 / 2 then "well-utilized"
  else "under-utilized"

/-- Uptime reliability rating thresholds (strict comparisons). -/
def reliabilityRating (uptime_mean : ℚ) : String :=
  if uptime_mean > 19 / 20 then "excellent"
  else if uptime_mean > 17 / 20 then "good"
  else "needs improvement"

/-- `get_utilization_insights` (analysis lines 456-616). -/
def get_utilization_insights (rows : List AggRow) : J :=
  let overall : List (String × J) :=
    (let cpu_data := dropnaCol rows (·.cpu_utilization_mean)
     if cpu_data.isEmpty then []
     else [("cpu", J.obj
       [("average_utilization", J.num (mean cpu_data)),
        ("utilization_category", J.str (cpuCategory (mean cpu_data))),
        ("max_utilization", jColMax rows (·.cpu_utilization_max)),
        ("min_utilization", jColMin rows (·.cpu_utilization_min))])]) ++
    (let mem_data := dropnaCol rows (·.memory_used_gb_mean)
     if mem_data.isEmpty then []
     else [("memory", J.obj
       [("average_memory_gb", J.num (mean mem_data)),
        ("max_memory_gb", jColMax rows (·.memory_used_gb_max)),
        ("min_memory_gb", jColMin rows (·.memory_used_gb_min))])]) ++
    (let network_data := dropnaCol rows (·.network_total_bytes_sum)
     if network_data.isEmpty then []
     else [("network", J.obj
       [("total_network_bytes", J.num network_data.sum),
        ("total_network_gb", J.num (network_data.sum / 1024 ^ 3)),
        ("average_daily_network_gb", J.num (mean network_data / 1024 ^ 3))])]) ++
    (let uptime_data := dropnaCol rows (·.uptime_fraction_mean)
     if uptime_data.isEmpty then []
     else [("uptime", J.obj
       [("average_uptime_fraction", J.num (mean uptime_data)),
        ("uptime_percentage", J.num (mean uptime_data * 100)),
        ("reliability_rating", J.str (reliabilityRating (mean uptime_data)))])])
  let perInst : List (String × J) :=
    (firstOcc (rows.map (·.instance_id))).map (fun i =>
      let instance_df := rows.filter (fun r => decide (r.instance_id = i))
      (pyStr i, J.obj
        ((let cpu_data := dropnaCol instance_df (·.cpu_utilization_mean)
          if cpu_data.isEmpty then []
          else [("cpu", J.obj
            [("average", J.num (mean cpu_data)),
             ("max", jColMax instance_df (·.cpu_utilization_max)),
             ("min", jColMin instance_df (·.cpu_utilization_min)),
             ("std", stdJ cpu_data),
             ("category", J.str (cpuCategory (mean cpu_data)))])]) ++
         (let mem_data := dropnaCol instance_df (·.memory_used_gb_mean)
          if mem_data.isEmpty then []
          else [("memory", J.obj
            [("average_gb", J.num (mean mem_data)),
             ("max_gb", jColMax instance_df (·.memory_used_gb_max)),
             ("min_gb", jColMin instance_df (·.memory_used_gb_min)),
             ("std_gb", stdJ mem_data)])]) ++
         (let network_data := dropnaCol instance_df (·.network_total_bytes_sum)
          if network_data.isEmpty then []
          else
            let ingress_data := dropnaCol instance_df (·.ingress_bytes_sum)
            let egress_data := dropnaCol instance_df (·.egress_bytes_sum)
            [("network", J.obj
              ([("total_gb", J.num (network_data.sum / 1024 ^ 3)),
                ("avg_daily_gb", J.num (mean network_data / 1024 ^ 3)),
                ("max_daily_gb", J.num (listMax network_data / 1024 ^ 3)),
                ("min_daily_gb", J.num (listMin network_data / 1024 ^ 3))] ++
               (if !ingress_data.isEmpty && !egress_data.isEmpty then
                  [("ingress_gb", J.num (ingress_data.sum / 1024 ^ 3)),
                   ("egress_gb", J.num (egress_data.sum / 1024 ^ 3))]
                else [])))]) ++
         (let disk_read_data := dropnaCol instance_df (·.disk_read_bytes_sum)
          let disk_write_data := dropnaCol instance_df (·.disk_write_bytes_sum)
          let disk_metrics :=
            (if disk_read_data.isEmpty then []
             else [("total_read_gb", J.num (disk_read_data.sum / 1024 ^ 3)),
                   ("avg_daily_read_gb", J.num (mean disk_read_data / 1024 ^ 3))]) ++
            (if disk_write_data.isEmpty then []
             else [("total_write_gb", J.num (disk_write_data.sum / 1024 ^ 3)),
                   ("avg_daily_write_gb", J.num (mean disk_write_data / 1024 ^ 3))])
          if disk_metrics.isEmpty then [] else [("disk_io", J.obj disk_metrics)]) ++
         (let uptime_data := dropnaCol instance_df (·.uptime_fraction_mean)
          if uptime_data.isEmpty then []
          else [("uptime", J.obj
            [("average_fraction", J.num (mean uptime_data)),
             ("percentage", J.num (mean uptime_data * 100)),
             ("max_fraction", jColMax instance_df (·.uptime_fraction_max)),
             ("min_fraction", jColMin instance_df (·.uptime_fraction_min)),
             ("reliability_rating", J.str (reliabilityRating (mean uptime_data)))])]) ++
         (let cost_eff_data := dropnaCol instance_df (·.cost_per_cpu_mean)
          if cost_eff_data.isEmpty then []
          else [("cost_efficiency", J.obj
            [("average_cost_per_cpu", J.num (mean cost_eff_data)),
             ("max_cost_per_cpu", J.num (listMax cost_eff_data)),
             ("min_cost_per_cpu", J.num (listMin cost_eff_data))])]))))
  J.obj ([("overall", J.obj overall)] ++ [("per_instance", J.obj perInst)])

/-- Serialize one anomaly entry (dates are reported as strings). -/
def anomalyEntryJ (e : AnomalyEntry) : J :=
  J.obj
    [("count", J.num e.count),
     ("dates", J.arr (e.dates.map (fun d => J.str (toString d)))),
     ("values", J.arr (e.values.map J.num)),
     ("lower_bound", J.num e.lower_bound),
     ("upper_bound", J.num e.upper_bound)]

/-- The anomaly facet as report JSON. -/
def anomaliesJ (rows : List AggRow) : J :=
  J.obj ((detect_anomalies rows).map (fun p =>
    (pyStr p.1, J.obj (p.2.map (fun q => (q.1, anomalyEntryJ q.2))))))

/-- `analyze_vm_data` (analysis lines 7-47): preprocess (without the CSV side
effect), then assemble the eight report facets. -/
def analyze_vm_data (events : List RawEvent) : List (String × J) :=
  let preprocessed_df := preprocess_vm_data events
  [("instance_summary", get_instance_summary preprocessed_df),
   ("overall_stats", get_descriptive_stats preprocessed_df),
   ("per_instance_analysis", get_per_instance_analysis preprocessed_df),
   ("correlation_analysis", get_correlation_analysis preprocessed_df),
   ("trend_analysis", get_trend_analysis preprocessed_df),
   ("cost_analysis", get_cost_analysis preprocessed_df),
   ("utilization_insights", get_utilization_insights preprocessed_df),
   ("anomalies", anomaliesJ preprocessed_df)]

/-! ## Theorems -/

/-! ### C2: SKU classification -/

/-- C2.  SKU classification is a total function: for every `sku_description`,
`categorize_sku` returns exactly one of the six categories, chosen by
case-insensitive substring rules in the code's priority order with the first
match winning: "vm state" or "ssd" gives Storage; "network" and "inter zone"
gives Network_InterZone; "network" and "intra zone" gives Network_IntraZone;
"network" and "google services" gives Network_GoogleServices; "network" alone
gives Network_Other; otherwise Other. -/
theorem categorize_sku_total_and_first_match (sku : List Char) :
    categorize_sku sku ∈
      ["Storage", "Network_InterZone", "Network_IntraZone", "Network_GoogleServices",
       "Network_Other", "Other"] ∧
    (categorize_sku sku = "Storage" ↔
      (containsSub "vm state".data (lowerL sku) ||
       containsSub "ssd".data (lowerL sku)) = true) ∧
    (categorize_sku sku = "Network_InterZone" ↔
      ((containsSub "vm state".data (lowerL sku) ||
        containsSub "ssd".data (lowerL sku)) = false ∧
       (containsSub "network".data (lowerL sku) &&
        containsSub "inter zone".data (lowerL sku)) = true)) ∧
    (categorize_sku sku = "Network_IntraZone" ↔
      ((containsSub "vm state".data (lowerL sku) ||
        containsSub "ssd".data (lowerL sku)) = false ∧
       (containsSub "network".data (lowerL sku) &&
        containsSub "inter zone".data (lowerL sku)) = false ∧
       (containsSub "network".data (lowerL sku) &&
        containsSub "intra zone".data (lowerL sku)) = true)) ∧
    (categorize_sku sku = "Network_GoogleServices" ↔
      ((containsSub "vm state".data (lowerL sku) ||
        containsSub "ssd".data (lowerL sku)) = false ∧
       (containsSub "network".data (lowerL sku) &&
        containsSub "inter zone".data (lowerL sku)) = false ∧
       (containsSub "network".data (lowerL sku) &&
        containsSub "intra zone".data (lowerL sku)) = false ∧
       (containsSub "network".data (lowerL sku) &&
        containsSub "google services".data (lowerL sku)) = true)) ∧
    (categorize_sku sku = "Network_Other" ↔
      ((containsSub "vm state".data (lowerL sku) ||
        containsSub "ssd".data (lowerL sku)) = false ∧
       (containsSub "network".data (lowerL sku) &&
        containsSub "inter zone".data (lowerL sku)) = false ∧
       (containsSub "network".data (lowerL sku) &&
        containsSub "intra zone".data (lowerL sku)) = false ∧
       (containsSub "network".data (lowerL sku) &&
        containsSub "google services".data (lowerL sku)) = false ∧
       containsSub "network".data (lowerL sku) = true)) ∧
    (categorize_sku sku = "Other" ↔
      ((containsSub "vm state".data (lowerL sku) ||
        containsSub "ssd".data (lowerL sku)) = false ∧
       containsSub "network".data (lowerL sku) = false)) := by
  unfold categorize_sku
  dsimp only
  split_ifs with h1 h2 h3 h4 h5 <;> simp_all
  rcases h1 with h | h <;> simp_all

/-! ### C6: cost-per-CPU epsilon -/

/-- C6.  For every raw event with nonnegative CPU utilization, the derived
`cost_per_cpu` equals `cost_usd / (cpu_utilization + 0.001)`, the denominator
is nonzero (so division by zero cannot occur), and the quotient is an exact
finite rational: multiplying back by the denominator recovers `cost_usd`. -/
theorem cost_per_cpu_safe (e : RawEvent) (h : 0 ≤ e.cpu_utilization) :
    e.cpu_utilization + 1 / 1000 ≠ 0 ∧
    (toProcRow e).cost_per_cpu = e.cost_usd / (e.cpu_utilization + 1 / 1000) ∧
    (toProcRow e).cost_per_cpu * (e.cpu_utilization + 1 / 1000) = e.cost_usd := by
  have hpos : 0 < e.cpu_utilization + 1 / 1000 :=
    add_pos_of_nonneg_of_pos h (by norm_num)
  refine ⟨ne_of_gt hpos, rfl, ?_⟩
  show e.cost_usd / (e.cpu_utilization + 1 / 1000) * (e.cpu_utilization + 1 / 1000) = e.cost_usd
  exact div_mul_cancel₀ _ (ne_of_gt hpos)

/-- A concrete raw event used by witnesses. -/
def demoEvent : RawEvent :=
  { date := 7
    resource_global_name := "/projects/demo-proj/zones/us-central1-a/instances/40123".data
    cpu_utilization := 1 / 2
    memory_used_bytes := 2 ^ 31
    disk_read_bytes := 100
    disk_write_bytes := 200
    ingress_bytes := 300
    egress_bytes := 400
    uptime_fraction := 99 / 100
    cost_usd := 5
    sku_description := "SSD backed PD Capacity".data }

/-- Witness for C6 at a concrete event. -/
theorem cost_per_cpu_safe_witness :
    (toProcRow demoEvent).cost_per_cpu * (demoEvent.cpu_utilization + 1 / 1000) =
      demoEvent.cost_usd :=
  (cost_per_cpu_safe demoEvent (by norm_num [demoEvent])).2.2

/-! ### C3: trend-classification thresholds -/

/-- When the split-halves percent change is defined, `get_trend_direction`
classifies it with strict ±5 thresholds. -/
theorem get_trend_direction_eq_of_pct (col : List (Option ℚ)) (p : ℚ)
    (hp : split_halves_pct col = some p) :
    get_trend_direction col =
      if p > 5 then "increasing" else if p < -5 then "decreasing" else "stable" := by
  simp only [split_halves_pct] at hp
  simp only [get_trend_direction]
  by_cases h1 : col.length < 2
  · simp [h1] at hp
  · simp only [if_neg h1] at hp ⊢
    by_cases h2 : (col.filterMap id).length < 2
    · simp [h2] at hp
    · simp only [if_neg h2] at hp ⊢
      by_cases h3 :
          mean ((col.filterMap id).take ((col.filterMap id).length / 2)) = 0
      · simp [h3] at hp
      · simp only [if_neg h3, Option.some.injEq] at hp ⊢
        rw [hp]

/-- The trend label of the overall (first-versus-last-date) metric entry, when
the entry is produced. -/
theorem overall_trend_label_of_pct (f l p : ℚ) (hf : f ≠ 0)
    (hp : ((l - f) / f) * 100 = p) :
    (overallMetricEntry (some f) (some l)).bind (fun j => objLookup j "trend") =
      some (J.str (if p > 5 then "increasing" else if p < -5 then "decreasing"
                   else "stable")) := by
  simp [overallMetricEntry, hf, objLookup, List.lookup, hp]

/-- C3.  Strict threshold boundaries for both trend classifiers: a percent
change of exactly +5 classifies as stable for the split-halves classifier
`get_trend_direction` and for the overall first-versus-last entry; +5.01
classifies as increasing; exactly -5 classifies as stable; strictly below -5
classifies as decreasing; strictly above +5 classifies as increasing. -/
theorem trend_threshold_boundaries (col : List (Option ℚ)) (p f l : ℚ)
    (hp : split_halves_pct col = some p) (hf : f ≠ 0)
    (hfl : ((l - f) / f) * 100 = p) :
    (p = 5 →
      get_trend_direction col = "stable" ∧
      (overallMetricEntry (some f) (some l)).bind (fun j => objLookup j "trend") =
        some (J.str "stable")) ∧
    (p = 501 / 100 →
      get_trend_direction col = "increasing" ∧
      (overallMetricEntry (some f) (some l)).bind (fun j => objLookup j "trend") =
        some (J.str "increasing")) ∧
    (p = -5 →
      get_trend_direction col = "stable" ∧
      (overallMetricEntry (some f) (some l)).bind (fun j => objLookup j "trend") =
        some (J.str "stable")) ∧
    (p < -5 →
      get_trend_direction col = "decreasing" ∧
      (overallMetricEntry (some f) (some l)).bind (fun j => objLookup j "trend") =
        some (J.str "decreasing")) ∧
    (5 < p →
      get_trend_direction col = "increasing" ∧
      (overallMetricEntry (some f) (some l)).bind (fun j => objLookup j "trend") =
        some (J.str "increasing")) := by
  have hg := get_trend_direction_eq_of_pct col p hp
  have ho := overall_trend_label_of_pct f l p hf hfl
  refine ⟨?_, ?_, ?_, ?_, ?_⟩ <;> intro hcase
  · subst hcase
    constructor
    · rw [hg]; norm_num
    · rw [ho]; norm_num
  · subst hcase
    constructor
    · rw [hg]; norm_num
    · rw [ho]; norm_num
  · subst hcase
    constructor
    · rw [hg]; norm_num
    · rw [ho]; norm_num
  · constructor
    · rw [hg]; rw [if_neg (by linarith), if_pos hcase]
    · rw [ho]; rw [if_neg (by linarith), if_pos hcase]
  · constructor
    · rw [hg]; rw [if_pos hcase]
    · rw [ho]; rw [if_pos hcase]

/-- Witness for C3: the two-point series (100, 105) has split-halves percent
change exactly +5 and classifies as stable under both classifiers. -/
theorem trend_threshold_boundaries_witness :
    get_trend_direction [some 100, some 105] = "stable" ∧
    (overallMetricEntry (some 100) (some 105)).bind (fun j => objLookup j "trend") =
      some (J.str "stable") :=
  (trend_threshold_boundaries [some 100, some 105] 5 100 105
    (by norm_num [split_halves_pct, mean, List.filterMap])
    (by norm_num) (by norm_num)).1 rfl

/-! ### Grouping lemmas -/

theorem insertBy_perm {α : Type} (le : α → α → Bool) (x : α) (l : List α) :
    (insertBy le x l).Perm (x :: l) := by
  induction l with
  | nil => exact List.Perm.refl _
  | cons y ys ih =>
    unfold insertBy
    by_cases h : le x y
    · rw [if_pos h]
    · rw [if_neg h]
      exact (ih.cons y).trans (List.Perm.swap x y ys)

theorem sortBy_perm {α : Type} (le : α → α → Bool) (l : List α) :
    (sortBy le l).Perm l := by
  induction l with
  | nil => exact List.Perm.refl _
  | cons x t ih => exact (insertBy_perm le x (sortBy le t)).trans (ih.cons x)

theorem mem_firstOccAux {α : Type} [DecidableEq α] (l : List α) :
    ∀ (seen : List α) (a : α), a ∈ firstOccAux seen l ↔ a ∈ l ∧ a ∉ seen := by
  induction l with
  | nil => intro seen a; simp [firstOccAux]
  | cons x xs ih =>
    intro seen a
    unfold firstOccAux
    by_cases hx : x ∈ seen
    · rw [if_pos hx, ih seen a, List.mem_cons]
      constructor
      · rintro ⟨h, hs⟩; exact ⟨Or.inr h, hs⟩
      · rintro ⟨h | h, hs⟩
        · exact absurd (h ▸ hx) hs
        · exact ⟨h, hs⟩
    · rw [if_neg hx]
      simp only [List.mem_cons, ih (x :: seen) a]
      constructor
      · rintro (rfl | ⟨h, hs⟩)
        · exact ⟨Or.inl rfl, hx⟩
        · exact ⟨Or.inr h, fun c => hs (Or.inr c)⟩
      · rintro ⟨h | h, hs⟩
        · exact Or.inl h
        · by_cases hax : a = x
          · exact Or.inl hax
          · exact Or.inr ⟨h, fun c => (c.elim hax hs : False)⟩

theorem mem_firstOcc {α : Type} [DecidableEq α] (l : List α) (a : α) :
    a ∈ firstOcc l ↔ a ∈ l := by
  rw [firstOcc, mem_firstOccAux]; simp

theorem nodup_firstOccAux {α : Type} [DecidableEq α] (l : List α) :
    ∀ seen : List α, (firstOccAux seen l).Nodup := by
  induction l with
  | nil => intro seen; simp [firstOccAux]
  | cons x xs ih =>
    intro seen
    unfold firstOccAux
    by_cases hx : x ∈ seen
    · rw [if_pos hx]; exact ih seen
    · rw [if_neg hx]
      refine List.nodup_cons.mpr ⟨?_, ih (x :: seen)⟩
      rw [mem_firstOccAux]
      rintro ⟨-, hmem⟩
      exact hmem (List.mem_cons_self x seen)

theorem nodup_firstOcc {α : Type} [DecidableEq α] (l : List α) : (firstOcc l).Nodup :=
  nodup_firstOccAux l []

theorem sum_map_filter_split {α : Type} (val : α → ℚ) (p : α → Bool) (l : List α) :
    ((l.filter p).map val).sum + ((l.filter (fun a => !(p a))).map val).sum =
      (l.map val).sum := by
  induction l with
  | nil => simp
  | cons x t ih =>
    rw [List.filter_cons, List.filter_cons]
    by_cases h : p x
    · rw [if_pos h, if_neg (by simp [h])]
      simp only [List.map_cons, List.sum_cons]
      linarith [ih]
    · rw [if_neg (by simp [h]), if_pos (by simp [h])]
      simp only [List.map_cons, List.sum_cons]
      linarith [ih]

theorem sum_fiberwise {α κ : Type} [DecidableEq κ] (key : α → κ) (val : α → ℚ) :
    ∀ (ks : List κ) (l : List α), ks.Nodup → (∀ a ∈ l, key a ∈ ks) →
      (ks.map (fun k => ((l.filter (fun a => decide (key a = k))).map val).sum)).sum =
        (l.map val).sum := by
  intro ks
  induction ks with
  | nil =>
    intro l _ hcov
    have hl : l = [] := List.eq_nil_iff_forall_not_mem.mpr (fun a ha => by simpa using hcov a ha)
    subst hl; simp
  | cons k ks ih =>
    intro l hnd hcov
    rw [List.map_cons, List.sum_cons]
    have hsplit := sum_map_filter_split val (fun a => decide (key a = k)) l
    have htail :
        ks.map (fun k' => ((l.filter (fun a => decide (key a = k'))).map val).sum) =
        ks.map (fun k' =>
          (((l.filter (fun a => !(decide (key a = k)))).filter
              (fun a => decide (key a = k'))).map val).sum) := by
      apply List.map_congr_left
      intro k' hk'
      have hkk : k' ≠ k := fun h => (List.nodup_cons.mp hnd).1 (h ▸ hk')
      rw [List.filter_filter]
      have hfc : l.filter (fun a => decide (key a = k')) =
          l.filter (fun a => decide (key a = k') && !(decide (key a = k))) := by
        apply List.filter_congr
        intro a _
        by_cases h : key a = k'
        · simp [h, hkk]
        · simp [h]
      rw [hfc]
    have hcov' : ∀ a ∈ l.filter (fun a => !(decide (key a = k))), key a ∈ ks := by
      intro a ha
      have hmem := hcov a (List.mem_of_mem_filter ha)
      have hne : ¬ key a = k := by
        have := List.of_mem_filter ha
        simpa using this
      rcases List.mem_cons.mp hmem with h | h
      · exact absurd h hne
      · exact h
    rw [htail, ih _ (List.nodup_cons.mp hnd).2 hcov']
    linarith [hsplit]

/-- The key fields of an aggregated group are the grouping key. -/
theorem aggregate_key (rows : List ProcRow) (k : GroupKey) :
    aggKey (aggregate rows k) = k := by
  cases k; rfl

/-! ### C1: grouping-key uniqueness -/

/-- C1.  For every input batch, no two rows of the aggregate table returned by
`preprocess_vm_data` share the same `(date, instance_id, project_id, zone)`
grouping key. -/
theorem preprocess_grouping_key_unique (events : List RawEvent) :
    ((preprocess_vm_data events).map aggKey).Nodup := by
  unfold preprocess_vm_data
  have hperm :=
    (sortBy_perm outRowLe
      ((firstOcc ((events.map toProcRow).map rowKey)).map
        (aggregate (events.map toProcRow)))).map aggKey
  rw [List.Perm.nodup_iff hperm, List.map_map]
  have hcomp :
      (aggKey ∘ aggregate (events.map toProcRow)) =
        (id : GroupKey → GroupKey) := by
    funext k
    exact aggregate_key _ k
  rw [hcomp, List.map_id]
  exact nodup_firstOcc _

/-! ### C5: cost conservation -/

/-- C5.  Aggregation conserves cost: over exact rational arithmetic, the sum of
`cost_usd_sum` over all rows returned by `preprocess_vm_data` equals the sum of
`cost_usd` over all input raw events. -/
theorem preprocess_cost_conservation (events : List RawEvent) :
    ((preprocess_vm_data events).map (fun a => a.cost_usd_sum.getD 0)).sum =
      (events.map (·.cost_usd)).sum := by
  unfold preprocess_vm_data
  have hperm :=
    (sortBy_perm outRowLe
      ((firstOcc ((events.map toProcRow).map rowKey)).map
        (aggregate (events.map toProcRow)))).map (fun a => a.cost_usd_sum.getD 0)
  rw [List.Perm.sum_eq hperm, List.map_map]
  have hsummand :
      ∀ k ∈ firstOcc ((events.map toProcRow).map rowKey),
        ((fun a => a.cost_usd_sum.getD 0) ∘ aggregate (events.map toProcRow)) k =
          (((events.map toProcRow).filter
              (fun r => decide (rowKey r = k))).map (·.cost_usd)).sum :=
    fun k _ => rfl
  have hcov : ∀ r ∈ events.map toProcRow,
      rowKey r ∈ firstOcc ((events.map toProcRow).map rowKey) := by
    intro r hr
    rw [mem_firstOcc]
    exact List.mem_map_of_mem _ hr
  rw [List.map_congr_left hsummand,
    sum_fiberwise rowKey (·.cost_usd) _ _ (nodup_firstOcc _) hcov, List.map_map]
  exact congrArg List.sum (List.map_congr_left fun e _ => rfl)

/-! ### Code-point order lemmas -/

theorem listCharLtB_self (a : List Char) : listCharLtB a a = false := by
  induction a with
  | nil => rfl
  | cons c t ih => simp [listCharLtB, ih]

theorem listCharLtB_cases : ∀ (c a b : List Char), listCharLtB c a = true →
    listCharLtB c b = true ∨ listCharLtB b a = true := by
  intro c
  induction c with
  | nil =>
    intro a b h
    cases a with
    | nil => simp [listCharLtB] at h
    | cons xa as =>
      cases b with
      | nil => right; simp [listCharLtB]
      | cons xb bs => left; simp [listCharLtB]
  | cons xc cs ih =>
    intro a b h
    cases a with
    | nil => simp [listCharLtB] at h
    | cons xa as =>
      cases b with
      | nil => right; simp [listCharLtB]
      | cons xb bs =>
        simp only [listCharLtB] at h ⊢
        rcases Nat.lt_trichotomy xc.toNat xa.toNat with h1 | h1 | h1
        · rcases Nat.lt_trichotomy xc.toNat xb.toNat with h2 | h2 | h2
          · left; simp [h2]
          · right; have hba : xb.toNat < xa.toNat := h2 ▸ h1; simp [hba]
          · right; have hba : xb.toNat < xa.toNat := Nat.lt_trans h2 h1; simp [hba]
        · rw [if_neg (by omega), if_neg (by omega)] at h
          rcases Nat.lt_trichotomy xc.toNat xb.toNat with h2 | h2 | h2
          · left; simp [h2]
          · rcases ih as bs h with h3 | h3
            · left; rw [if_neg (by omega), if_neg (by omega)]; exact h3
            · right; rw [if_neg (by omega), if_neg (by omega)]; exact h3
          · right; rw [if_pos (by omega)]
        · rw [if_neg (by omega), if_pos h1] at h
          exact absurd h (by simp)

theorem strLeB_refl (a : String) : strLeB a a = true := by
  simp [strLeB, listCharLtB_self]

theorem listCharLtB_asymm : ∀ a b, listCharLtB a b = true → listCharLtB b a = false := by
  intro a
  induction a with
  | nil =>
    intro b h
    cases b with
    | nil => simp [listCharLtB] at h
    | cons y ys => simp [listCharLtB]
  | cons x xs ih =>
    intro b h
    cases b with
    | nil => simp [listCharLtB] at h
    | cons y ys =>
      simp only [listCharLtB] at h ⊢
      rcases Nat.lt_trichotomy x.toNat y.toNat with h1 | h1 | h1
      · rw [if_neg (by omega), if_pos h1]
      · rw [if_neg (by omega), if_neg (by omega)] at h ⊢
        exact ih ys h
      · rw [if_neg (by omega), if_pos h1] at h
        exact absurd h (by simp)

theorem strLeB_total (a b : String) : strLeB a b = true ∨ strLeB b a = true := by
  by_cases h : listCharLtB b.data a.data = true
  · right
    simp only [strLeB]
    rw [listCharLtB_asymm _ _ h]
    rfl
  · left
    simp only [strLeB]
    rw [Bool.not_eq_true] at h
    rw [h]
    rfl

theorem strLeB_trans (a b c : String) (hab : strLeB a b = true) (hbc : strLeB b c = true) :
    strLeB a c = true := by
  simp only [strLeB, Bool.not_eq_true'] at hab hbc ⊢
  by_contra hca
  rw [Bool.not_eq_false] at hca
  rcases listCharLtB_cases c.data a.data b.data hca with h | h
  · rw [hbc] at h; exact Bool.false_ne_true h
  · rw [hab] at h; exact Bool.false_ne_true h

/-! ### Head of a sorted list is minimal -/

theorem sortBy_head_min {α : Type} (le : α → α → Bool)
    (htot : ∀ a b, le a b = true ∨ le b a = true)
    (htrans : ∀ a b c, le a b = true → le b c = true → le a c = true) :
    ∀ (l : List α) (m : α) (s : List α), sortBy le l = m :: s → ∀ x ∈ l, le m x = true := by
  intro l
  induction l with
  | nil => intro m s h; simp [sortBy] at h
  | cons x t ih =>
    intro m s h x' hx'
    rw [show sortBy le (x :: t) = insertBy le x (sortBy le t) from rfl] at h
    cases hs : sortBy le t with
    | nil =>
      rw [hs] at h
      have ht : t = [] := by
        have hp := sortBy_perm le t
        rw [hs] at hp
        exact List.Perm.eq_nil hp.symm
      subst ht
      simp only [insertBy] at h
      injection h with h1 h2
      subst h1
      rcases List.mem_singleton.mp hx' with rfl
      rcases htot x' x' with h3 | h3 <;> exact h3
    | cons m' s' =>
      rw [hs] at h
      unfold insertBy at h
      by_cases hle : le x m' = true
      · rw [if_pos hle] at h
        injection h with h1 h2
        subst h1
        rcases List.mem_cons.mp hx' with rfl | hmem
        · rcases htot x' x' with h3 | h3 <;> exact h3
        · exact htrans x m' x' hle (ih m' s' hs x' hmem)
      · rw [if_neg hle] at h
        injection h with h1 h2
        subst h1
        rcases List.mem_cons.mp hx' with rfl | hmem
        · rcases htot m' x' with h3 | h3
          · exact h3
          · exact absurd h3 hle
        · exact ih m' s' hs x' hmem

/-! ### C4: the SKU-category tie-break -/

theorem exists_max_count {α : Type} (f : α → ℕ) :
    ∀ (l : List α), l ≠ [] → ∃ v ∈ l, ∀ w ∈ l, f w ≤ f v := by
  intro l
  induction l with
  | nil => intro h; exact absurd rfl h
  | cons x t ih =>
    intro _
    by_cases ht : t = []
    · subst ht
      refine ⟨x, List.mem_singleton.mpr rfl, ?_⟩
      intro w hw
      rcases List.mem_singleton.mp hw with rfl
      exact le_refl _
    · obtain ⟨v, hv, hmax⟩ := ih ht
      by_cases hcmp : f x ≤ f v
      · refine ⟨v, List.mem_cons_of_mem _ hv, ?_⟩
        intro w hw
        rcases List.mem_cons.mp hw with rfl | hw'
        · exact hcmp
        · exact hmax w hw'
      · refine ⟨x, List.mem_cons_self _ _, ?_⟩
        intro w hw
        rcases List.mem_cons.mp hw with rfl | hw'
        · exact le_refl _
        · exact le_trans (hmax w hw') (le_of_not_le hcmp)

/-- The `sku_category` reduction on a nonempty group picks an element of the
group that attains the maximal multiplicity, and among the tied maximal values
it picks the least in code-point order (pandas `mode()` sorts the modes). -/
theorem sku_category_agg_least_mode (xs : List String) (hne : xs ≠ []) :
    sku_category_agg xs ∈ xs ∧
    (∀ v ∈ xs, xs.count v ≤ xs.count (sku_category_agg xs)) ∧
    (∀ v ∈ xs, xs.count v = xs.count (sku_category_agg xs) →
      strLeB (sku_category_agg xs) v = true) := by
  obtain ⟨v0, hv0, hmax0⟩ := exists_max_count (fun w => xs.count w) xs hne
  have hv0c : v0 ∈ (firstOcc xs).filter
      (fun v => xs.all (fun w => xs.count w ≤ xs.count v)) := by
    rw [List.mem_filter]
    refine ⟨(mem_firstOcc xs v0).mpr hv0, ?_⟩
    rw [List.all_eq_true]
    intro w hw
    exact decide_eq_true (hmax0 w hw)
  cases hm : pandasStrModes xs with
  | nil =>
    exfalso
    have hp := sortBy_perm strLeB
      ((firstOcc xs).filter (fun v => xs.all (fun w => xs.count w ≤ xs.count v)))
    rw [show sortBy strLeB
        ((firstOcc xs).filter (fun v => xs.all (fun w => xs.count w ≤ xs.count v))) =
        pandasStrModes xs from rfl, hm] at hp
    rw [List.Perm.eq_nil hp.symm] at hv0c
    exact absurd hv0c (List.not_mem_nil v0)
  | cons m ms =>
    have hagg : sku_category_agg xs = m := by
      simp [sku_category_agg, hm]
    rw [hagg]
    have hm' : sortBy strLeB
        ((firstOcc xs).filter (fun v => xs.all (fun w => xs.count w ≤ xs.count v))) =
        m :: ms := hm
    have hmem : m ∈ (firstOcc xs).filter
        (fun v => xs.all (fun w => xs.count w ≤ xs.count v)) := by
      have : m ∈ sortBy strLeB
          ((firstOcc xs).filter (fun v => xs.all (fun w => xs.count w ≤ xs.count v))) := by
        rw [hm']
        exact List.mem_cons_self _ _
      exact (sortBy_perm _ _).mem_iff.mp this
    rw [List.mem_filter] at hmem
    obtain ⟨hmx, hall⟩ := hmem
    rw [mem_firstOcc] at hmx
    rw [List.all_eq_true] at hall
    refine ⟨hmx, ?_, ?_⟩
    · intro v hv
      exact of_decide_eq_true (hall v hv)
    · intro v hv hcnt
      have hvc : v ∈ (firstOcc xs).filter
          (fun v => xs.all (fun w => xs.count w ≤ xs.count v)) := by
        rw [List.mem_filter]
        refine ⟨(mem_firstOcc xs v).mpr hv, ?_⟩
        rw [List.all_eq_true]
        intro w hw
        exact decide_eq_true (hcnt ▸ of_decide_eq_true (hall w hw))
      exact sortBy_head_min strLeB strLeB_total strLeB_trans _ m ms hm' v hvc

/-- Decomposition of a preprocessed output row: it is the aggregation of some
first-occurrence grouping key. -/
theorem preprocess_mem_decomp (events : List RawEvent) (a : AggRow)
    (ha : a ∈ preprocess_vm_data events) :
    ∃ k ∈ firstOcc ((events.map toProcRow).map rowKey),
      a = aggregate (events.map toProcRow) k := by
  unfold preprocess_vm_data at ha
  have hmem := (sortBy_perm _ _).mem_iff.mp ha
  obtain ⟨k, hk, hak⟩ := List.mem_map.mp hmem
  exact ⟨k, hk, hak.symm⟩

/-- Every first-occurrence grouping key has a nonempty group. -/
theorem groupRows_ne_nil (rows : List ProcRow) (k : GroupKey)
    (hk : k ∈ firstOcc (rows.map rowKey)) : groupRows rows k ≠ [] := by
  rw [mem_firstOcc] at hk
  obtain ⟨r, hr, hrk⟩ := List.mem_map.mp hk
  intro h
  have hmem : r ∈ groupRows rows k := by
    unfold groupRows
    rw [List.mem_filter]
    exact ⟨hr, by simp [hrk]⟩
  rw [h] at hmem
  exact absurd hmem (List.not_mem_nil r)

/-- The SKU categories observed, in input order, in the group of an output
row: the spec's "SKU categories observed in that group". -/
def groupCats (events : List RawEvent) (a : AggRow) : List String :=
  ((events.map toProcRow).filter (fun r => decide (rowKey r = aggKey a))).map
    (·.sku_category)

/-- Events used by the C4 tie: two raw events with the same grouping key whose
SKU categories differ, giving a two-way tie for the mode. -/
def tieEventA : RawEvent := { demoEvent with sku_description := "SSD Capacity".data }

/-- Second tied event: same key, category Network_Other. -/
def tieEventB : RawEvent :=
  { demoEvent with sku_description := "Network Egress Fee".data, cost_usd := 3 }

/-- The two-event tie batch. -/
def demoTieEvents : List RawEvent := [tieEventA, tieEventB]

/-- The single aggregate row of the tie batch. -/
def demoTieAgg : AggRow :=
  aggregate (demoTieEvents.map toProcRow) (rowKey (toProcRow tieEventA))

theorem demoTie_preprocess_eq : preprocess_vm_data demoTieEvents = [demoTieAgg] := by
  unfold preprocess_vm_data
  dsimp only
  have hk : rowKey (toProcRow tieEventB) = rowKey (toProcRow tieEventA) := rfl
  have h2 : firstOcc ((demoTieEvents.map toProcRow).map rowKey) =
      [rowKey (toProcRow tieEventA)] := by
    show firstOcc [rowKey (toProcRow tieEventA), rowKey (toProcRow tieEventB)] = _
    rw [hk]
    simp [firstOcc, firstOccAux]
  rw [h2]
  rfl

/-- C4 counterexample: on a two-event batch forming one group with SKU
categories [Storage, Network_Other] (a tie), `preprocess_vm_data` reports
`Network_Other`, not the first value encountered in input order (`Storage`):
pandas `mode()[0]` returns the least tied mode in sorted order. -/
theorem sku_tie_not_first_encountered :
    (preprocess_vm_data demoTieEvents).map (·.sku_category) = ["Network_Other"] ∧
    demoTieEvents.map (fun e => categorize_sku e.sku_description) =
      ["Storage", "Network_Other"] ∧
    ("Network_Other" : String) ≠ "Storage" := by
  refine ⟨?_, by decide, by decide⟩
  rw [demoTie_preprocess_eq]
  show [demoTieAgg.sku_category] = ["Network_Other"]
  decide

/-- C4 (amended).  For every group produced by `preprocess_vm_data`, the
aggregated `sku_category` is a statistical mode of the SKU categories observed
in that group; when several categories tie for most frequent, the one chosen
is the least tied category in code-point (lexicographic) order — pandas
`mode()` returns the modes sorted — not the first encountered. -/
theorem sku_category_is_least_mode (events : List RawEvent) (a : AggRow)
    (ha : a ∈ preprocess_vm_data events) :
    a.sku_category ∈ groupCats events a ∧
    (∀ v ∈ groupCats events a,
      (groupCats events a).count v ≤ (groupCats events a).count a.sku_category) ∧
    (∀ v ∈ groupCats events a,
      (groupCats events a).count v = (groupCats events a).count a.sku_category →
        strLeB a.sku_category v = true) := by
  obtain ⟨k, hk, rfl⟩ := preprocess_mem_decomp events a ha
  have hkey : aggKey (aggregate (events.map toProcRow) k) = k := aggregate_key _ _
  have hgc : groupCats events (aggregate (events.map toProcRow) k) =
      (groupRows (events.map toProcRow) k).map (·.sku_category) := by
    unfold groupCats groupRows
    rw [hkey]
  have hsku : (aggregate (events.map toProcRow) k).sku_category =
      sku_category_agg ((groupRows (events.map toProcRow) k).map (·.sku_category)) := rfl
  rw [hgc, hsku]
  apply sku_category_agg_least_mode
  intro h
  exact groupRows_ne_nil (events.map toProcRow) k hk (List.map_eq_nil_iff.mp h)

/-- Witness for C4 (amended) on the tie batch: the chosen category is a mode,
in particular at least as frequent as `Storage`. -/
theorem sku_category_is_least_mode_witness :
    demoTieAgg.sku_category ∈ groupCats demoTieEvents demoTieAgg ∧
    (groupCats demoTieEvents demoTieAgg).count "Storage" ≤
      (groupCats demoTieEvents demoTieAgg).count demoTieAgg.sku_category := by
  have hmem : demoTieAgg ∈ preprocess_vm_data demoTieEvents := by
    rw [demoTie_preprocess_eq]
    exact List.mem_singleton.mpr rfl
  have h := sku_category_is_least_mode demoTieEvents demoTieAgg hmem
  exact ⟨h.1, h.2.1 "Storage" (by decide)⟩

/-! ### C7: extraction failure and row retention -/

/-- The regex scan yields NaN exactly when no position matches: at every
offset, either the literal marker does not match or the capture fails. -/
theorem scanFor_eq_none_iff (marker : List Char) (cap : List Char → Option (List Char))
    (hm : marker ≠ []) :
    ∀ s : List Char, scanFor marker cap s = none ↔
      ∀ i, ¬(leadsWith marker (s.drop i) = true ∧
             (cap ((s.drop i).drop marker.length)).isSome = true) := by
  intro s
  induction s with
  | nil =>
    simp only [scanFor]
    constructor
    · intro _ i
      rintro ⟨hlw, -⟩
      rw [List.drop_nil] at hlw
      cases marker with
      | nil => exact hm rfl
      | cons c cs => simp [leadsWith] at hlw
    · intro _; trivial
  | cons c t ih =>
    have hstep : scanFor marker cap (c :: t) =
        (if leadsWith marker (c :: t) = true then
          (match cap ((c :: t).drop marker.length) with
           | some r => some r
           | none => scanFor marker cap t)
        else scanFor marker cap t) := rfl
    by_cases hP : leadsWith marker (c :: t) = true
    · cases hC : cap ((c :: t).drop marker.length) with
      | some r =>
        have hLHS : scanFor marker cap (c :: t) = some r := by
          rw [hstep, if_pos hP, hC]
        rw [hLHS]
        constructor
        · intro h
          exact absurd h (by simp)
        · intro hall
          refine absurd ⟨?_, ?_⟩ (hall 0)
          · rw [List.drop_zero]
            exact hP
          · rw [List.drop_zero, hC]
            rfl
      | none =>
        have hLHS : scanFor marker cap (c :: t) = scanFor marker cap t := by
          rw [hstep, if_pos hP, hC]
        rw [hLHS, ih]
        constructor
        · intro h i
          cases i with
          | zero =>
            rintro ⟨-, hs⟩
            rw [List.drop_zero, hC] at hs
            exact Bool.false_ne_true hs
          | succ n =>
            rw [List.drop_succ_cons]
            exact h n
        · intro h n
          have hn := h (n + 1)
          rw [List.drop_succ_cons] at hn
          exact hn
    · have hLHS : scanFor marker cap (c :: t) = scanFor marker cap t := by
        rw [hstep, if_neg hP]
      rw [hLHS, ih]
      constructor
      · intro h i
        cases i with
        | zero =>
          rintro ⟨hlw, -⟩
          rw [List.drop_zero] at hlw
          exact hP hlw
        | succ n =>
          rw [List.drop_succ_cons]
          exact h n
      · intro h n
        have hn := h (n + 1)
        rw [List.drop_succ_cons] at hn
        exact hn

/-- C7.  When `resource_global_name` does not match an extraction pattern
(for `instance_id`, a digit run right after `/instances/`; for `zone` and
`project_id`, a nonempty `/`-free run enclosed by the marker and a `/`), the
extracted field is null (`none`) rather than an error — the extractors are
total functions into `Option` — and the row is still represented in the
output: its (possibly null-keyed) grouping key appears on some output row. -/
theorem extraction_failure_null_and_rows_kept :
    (∀ s : List Char, extract_instance_id s = none ↔
      ∀ i, ¬(leadsWith "/instances/".data (s.drop i) = true ∧
             (capDigits ((s.drop i).drop "/instances/".data.length)).isSome = true)) ∧
    (∀ s : List Char, extract_zone s = none ↔
      ∀ i, ¬(leadsWith "/zones/".data (s.drop i) = true ∧
             (capSeg ((s.drop i).drop "/zones/".data.length)).isSome = true)) ∧
    (∀ s : List Char, extract_project_id s = none ↔
      ∀ i, ¬(leadsWith "/projects/".data (s.drop i) = true ∧
             (capSeg ((s.drop i).drop "/projects/".data.length)).isSome = true)) ∧
    (∀ events : List RawEvent, ∀ e ∈ events,
      ∃ a ∈ preprocess_vm_data events, aggKey a = rowKey (toProcRow e)) := by
  refine ⟨?_, ?_, ?_, ?_⟩
  · intro s
    exact scanFor_eq_none_iff _ _ (by decide) s
  · intro s
    exact scanFor_eq_none_iff _ _ (by decide) s
  · intro s
    exact scanFor_eq_none_iff _ _ (by decide) s
  · intro events e he
    have hk : rowKey (toProcRow e) ∈ firstOcc ((events.map toProcRow).map rowKey) := by
      rw [mem_firstOcc]
      exact List.mem_map_of_mem _ (List.mem_map_of_mem _ he)
    refine ⟨aggregate (events.map toProcRow) (rowKey (toProcRow e)), ?_, aggregate_key _ _⟩
    unfold preprocess_vm_data
    exact (sortBy_perm _ _).mem_iff.mpr (List.mem_map_of_mem _ hk)

/-- A raw event whose resource name matches none of the three patterns. -/
def badEvent : RawEvent :=
  { demoEvent with resource_global_name := "unstructured resource name".data }

/-- Witness for C7: the pattern-free resource name extracts to null, and the
row is still represented in the output under the all-null grouping key. -/
theorem extraction_failure_null_and_rows_kept_witness :
    extract_instance_id badEvent.resource_global_name = none ∧
    ∃ a ∈ preprocess_vm_data [badEvent],
      aggKey a = ⟨7, none, none, none⟩ := by
  refine ⟨by decide, ?_⟩
  obtain ⟨a, ha, hk⟩ :=
    extraction_failure_null_and_rows_kept.2.2.2 [badEvent] badEvent
      (List.mem_singleton.mpr rfl)
  refine ⟨a, ha, ?_⟩
  rw [hk]
  decide

/-! ### C8: IQR anomaly detection -/

theorem filterMap_length_of_isSome {α β : Type} (f : α → Option β) :
    ∀ l : List α, (∀ r ∈ l, (f r).isSome = true) → (l.filterMap f).length = l.length := by
  intro l
  induction l with
  | nil => intro _; rfl
  | cons x t ih =>
    intro h
    have hx := h x (List.mem_cons_self _ _)
    obtain ⟨b, hb⟩ := Option.isSome_iff_exists.mp hx
    rw [List.filterMap_cons, hb]
    simp only [List.length_cons]
    rw [ih (fun r hr => h r (List.mem_cons_of_mem _ hr))]

/-- C8.  The anomaly scan follows the IQR rule per instance and metric: with
more than 3 non-null observations the bounds are `[Q1 - 1.5*IQR, Q3 + 1.5*IQR]`
(`IQR = Q3 - Q1` over the sorted non-null data); the reported entry counts and
lists exactly the rows strictly outside the bounds (dates and values), and
every reported value is strictly outside; with at most 3 non-null observations,
or when no row falls outside the bounds, the metric is omitted (`none`); an
instance with no flagged metric is omitted from the report, and every reported
instance has a nonempty metric list. -/
theorem anomaly_iqr_spec :
    (∀ (idf : List AggRow) (proj : AggRow → Option ℚ),
      ((idf.filterMap proj).length ≤ 3 → metricAnomaly idf proj = none) ∧
      (∀ e, metricAnomaly idf proj = some e →
        3 < (idf.filterMap proj).length ∧
        e.lower_bound =
          quantileSorted (sortAsc (idf.filterMap proj)) (1 / 4) -
            3 / 2 * (quantileSorted (sortAsc (idf.filterMap proj)) (3 / 4) -
              quantileSorted (sortAsc (idf.filterMap proj)) (1 / 4)) ∧
        e.upper_bound =
          quantileSorted (sortAsc (idf.filterMap proj)) (3 / 4) +
            3 / 2 * (quantileSorted (sortAsc (idf.filterMap proj)) (3 / 4) -
              quantileSorted (sortAsc (idf.filterMap proj)) (1 / 4)) ∧
        0 < e.count ∧
        e.count = (idf.filter (fun r =>
          outsideBounds e.lower_bound e.upper_bound (proj r))).length ∧
        e.dates = (idf.filter (fun r =>
          outsideBounds e.lower_bound e.upper_bound (proj r))).map (·.date) ∧
        e.values.length = e.count ∧
        (∀ v ∈ e.values, v < e.lower_bound ∨ e.upper_bound < v)) ∧
      (3 < (idf.filterMap proj).length →
        idf.filter (fun r =>
          outsideBounds
            (quantileSorted (sortAsc (idf.filterMap proj)) (1 / 4) -
              3 / 2 * (quantileSorted (sortAsc (idf.filterMap proj)) (3 / 4) -
                quantileSorted (sortAsc (idf.filterMap proj)) (1 / 4)))
            (quantileSorted (sortAsc (idf.filterMap proj)) (3 / 4) +
              3 / 2 * (quantileSorted (sortAsc (idf.filterMap proj)) (3 / 4) -
                quantileSorted (sortAsc (idf.filterMap proj)) (1 / 4)))
            (proj r)) = [] →
        metricAnomaly idf proj = none)) ∧
    (∀ (rows : List AggRow) (i : Option (List Char)),
      instanceAnomalies (rows.filter (fun r => decide (r.instance_id = i))) = [] →
      ∀ es, (i, es) ∉ detect_anomalies rows) ∧
    (∀ (rows : List AggRow) (p : Option (List Char) × List (String × AnomalyEntry)),
      p ∈ detect_anomalies rows → p.2 ≠ []) := by
  refine ⟨?_, ?_, ?_⟩
  · intro idf proj
    refine ⟨?_, ?_, ?_⟩
    · intro hlen
      simp only [metricAnomaly]
      rw [if_neg (by omega)]
    · intro e he
      simp only [metricAnomaly] at he
      by_cases hlen : (idf.filterMap proj).length > 3
      · rw [if_pos hlen] at he
        by_cases hfl : 0 <
            (idf.filter (fun r =>
              outsideBounds
                (quantileSorted (sortAsc (idf.filterMap proj)) (1 / 4) -
                  3 / 2 * (quantileSorted (sortAsc (idf.filterMap proj)) (3 / 4) -
                    quantileSorted (sortAsc (idf.filterMap proj)) (1 / 4)))
                (quantileSorted (sortAsc (idf.filterMap proj)) (3 / 4) +
                  3 / 2 * (quantileSorted (sortAsc (idf.filterMap proj)) (3 / 4) -
                    quantileSorted (sortAsc (idf.filterMap proj)) (1 / 4)))
                (proj r))).length
        · rw [if_pos hfl] at he
          cases he
          have hsome : ∀ r ∈ idf.filter (fun r =>
              outsideBounds
                (quantileSorted (sortAsc (idf.filterMap proj)) (1 / 4) -
                  3 / 2 * (quantileSorted (sortAsc (idf.filterMap proj)) (3 / 4) -
                    quantileSorted (sortAsc (idf.filterMap proj)) (1 / 4)))
                (quantileSorted (sortAsc (idf.filterMap proj)) (3 / 4) +
                  3 / 2 * (quantileSorted (sortAsc (idf.filterMap proj)) (3 / 4) -
                    quantileSorted (sortAsc (idf.filterMap proj)) (1 / 4)))
                (proj r)), (proj r).isSome = true := by
            intro r hr
            have hout := List.of_mem_filter hr
            cases hpr : proj r with
            | none => rw [hpr] at hout; simp [outsideBounds] at hout
            | some v => rfl
          refine ⟨hlen, rfl, rfl, hfl, rfl, rfl,
            filterMap_length_of_isSome _ _ hsome, ?_⟩
          intro v hv
          obtain ⟨r, hr, hpr⟩ := List.mem_filterMap.mp hv
          have hout := List.of_mem_filter hr
          rw [hpr] at hout
          simp only [outsideBounds] at hout
          rcases Bool.or_eq_true _ _ |>.mp hout with h | h
          · exact Or.inl (of_decide_eq_true h)
          · exact Or.inr (of_decide_eq_true h)
        · rw [if_neg hfl] at he
          exact absurd he (by simp)
      · rw [if_neg hlen] at he
        exact absurd he (by simp)
    · intro hlen hempty
      simp only [metricAnomaly]
      rw [if_pos hlen, hempty]
      simp
  · intro rows i h es hmem
    unfold detect_anomalies at hmem
    obtain ⟨i', hi', hfi⟩ := List.mem_filterMap.mp hmem
    dsimp only at hfi
    by_cases hempty :
        (instanceAnomalies (rows.filter (fun r => decide (r.instance_id = i')))).isEmpty
    · rw [if_pos hempty] at hfi
      exact absurd hfi (by simp)
    · rw [if_neg hempty] at hfi
      have hii : i' = i ∧
          instanceAnomalies (rows.filter (fun r => decide (r.instance_id = i'))) = es := by
        have := Option.some.inj hfi
        exact ⟨congrArg Prod.fst this, congrArg Prod.snd this⟩
      obtain ⟨rfl, -⟩ := hii
      rw [h] at hempty
      exact hempty rfl
  · intro rows p hp
    unfold detect_anomalies at hp
    obtain ⟨i', hi', hfi⟩ := List.mem_filterMap.mp hp
    dsimp only at hfi
    by_cases hempty :
        (instanceAnomalies (rows.filter (fun r => decide (r.instance_id = i')))).isEmpty
    · rw [if_pos hempty] at hfi
      exact absurd hfi (by simp)
    · rw [if_neg hempty] at hfi
      have hp2 := congrArg Prod.snd (Option.some.inj hfi)
      dsimp at hp2
      rw [← hp2]
      intro hnil
      rw [hnil] at hempty
      exact hempty rfl

/-- An aggregate row with all metric cells null (building block for demo
frames fed directly to the analyzer). -/
def blankAggRow : AggRow :=
  { date := 0
    instance_id := none
    project_id := none
    zone := none
    cpu_utilization_mean := none
    cpu_utilization_min := none
    cpu_utilization_max := none
    memory_used_gb_mean := none
    memory_used_gb_min := none
    memory_used_gb_max := none
    disk_read_bytes_sum := none
    disk_read_bytes_mean := none
    disk_write_bytes_sum := none
    disk_write_bytes_mean := none
    ingress_bytes_sum := none
    ingress_bytes_mean := none
    egress_bytes_sum := none
    egress_bytes_mean := none
    network_total_bytes_sum := none
    network_total_bytes_mean := none
    disk_total_bytes_sum := none
    disk_total_bytes_mean := none
    uptime_fraction_mean := none
    uptime_fraction_min := none
    uptime_fraction_max := none
    cost_usd_sum := none
    cost_usd_mean := none
    cost_usd_max := none
    cost_per_cpu_mean := none
    sku_category := "Other" }

/-- One demo row of the spec's anomaly example series. -/
def anomalyDemoRow (d : ℕ) (c : ℚ) : AggRow :=
  { blankAggRow with date := d, instance_id := some ['1'], cost_usd_sum := some c }

/-- The spec's anomaly example: cost series [10, 11, 9, 10, 12, 1000]. -/
def anomalyDemoRows : List AggRow :=
  [anomalyDemoRow 1 10, anomalyDemoRow 2 11, anomalyDemoRow 3 9,
   anomalyDemoRow 4 10, anomalyDemoRow 5 12, anomalyDemoRow 6 1000]

/-- Witness for C8 on the spec's example series: exactly the outlier 1000 is
flagged, with Q1 = 10, Q3 = 11.75, bounds [7.375, 14.375]; the theorem's
characterization re-derives that the single reported value is strictly outside
the bounds. -/
theorem anomaly_iqr_spec_witness :
    metricAnomaly anomalyDemoRows (·.cost_usd_sum) =
      some ⟨1, [6], [1000], 59 / 8, 115 / 8⟩ ∧
    ((1000 : ℚ) < 59 / 8 ∨ (115 : ℚ) / 8 < 1000) := by
  have hm : metricAnomaly anomalyDemoRows (·.cost_usd_sum) =
      some ⟨1, [6], [1000], 59 / 8, 115 / 8⟩ := by
    have hmd : anomalyDemoRows.filterMap (·.cost_usd_sum) =
        [10, 11, 9, 10, 12, 1000] := rfl
    have hsort : sortAsc [10, 11, 9, 10, 12, 1000] = [9, 10, 10, 11, 12, 1000] := by
      norm_num [sortAsc, insertAsc]
    have htn : (3 : ℤ).toNat = 3 := rfl
    have htn1 : (1 : ℤ).toNat = 1 := rfl
    have hq1 : quantileSorted [9, 10, 10, 11, 12, 1000] (1 / 4) = 10 := by
      norm_num [quantileSorted, htn1]
    have hq3 : quantileSorted [9, 10, 10, 11, 12, 1000] (3 / 4) = 47 / 4 := by
      norm_num [quantileSorted, htn]
    simp only [metricAnomaly, hmd, hsort, hq1, hq3]
    norm_num [outsideBounds, anomalyDemoRows, anomalyDemoRow, blankAggRow,
      List.filter]
    rfl
  have h := (anomaly_iqr_spec.1 anomalyDemoRows (·.cost_usd_sum)).2.1
    ⟨1, [6], [1000], 59 / 8, 115 / 8⟩ hm
  exact ⟨hm, h.2.2.2.2.2.2.2 1000 (by simp)⟩

/-! ### C9: per-instance trend report shapes -/

theorem lookup_optSeg_self (n : String) (o : Option J) : (optSeg n o).lookup n = o := by
  cases o <;> simp [optSeg, List.lookup]

theorem lookup_optSeg_ne (n n' : String) (o : Option J) (h : n ≠ n') :
    (optSeg n o).lookup n' = none := by
  cases o with
  | none => rfl
  | some j =>
    simp only [optSeg, List.lookup]
    rw [beq_eq_false_iff_ne.mpr (Ne.symm h)]

theorem lookup_optSeg_append_self (n : String) (o : Option J) (rest : List (String × J)) :
    ((optSeg n o) ++ rest).lookup n = Option.or o (rest.lookup n) := by
  cases o <;> simp [optSeg, List.lookup]

theorem lookup_optSeg_append_ne (n n' : String) (o : Option J) (rest : List (String × J))
    (h : n ≠ n') : ((optSeg n o) ++ rest).lookup n' = rest.lookup n' := by
  cases o with
  | none => rfl
  | some j =>
    simp only [optSeg, List.lookup]
    rw [beq_eq_false_iff_ne.mpr (Ne.symm h)]
    rfl

/-- Lookup routing through the ten-segment per-instance trend assembly. -/
theorem per_instance_trend_lookups (idf : List AggRow) :
    (per_instance_trend_entries idf).lookup "cpu_utilization" = cpuTrendEntry idf ∧
    (per_instance_trend_entries idf).lookup "memory_usage_gb" = memoryTrendEntry idf ∧
    (per_instance_trend_entries idf).lookup "cost" = costTrendEntry idf ∧
    (per_instance_trend_entries idf).lookup "uptime_fraction" = uptimeTrendEntry idf ∧
    (per_instance_trend_entries idf).lookup "network_traffic" = networkTrendEntry idf ∧
    (per_instance_trend_entries idf).lookup "disk_read" = diskReadTrendEntry idf ∧
    (per_instance_trend_entries idf).lookup "disk_write" = diskWriteTrendEntry idf ∧
    (per_instance_trend_entries idf).lookup "network_ingress" = ingressTrendEntry idf ∧
    (per_instance_trend_entries idf).lookup "network_egress" = egressTrendEntry idf ∧
    (per_instance_trend_entries idf).lookup "cost_efficiency" = costEffTrendEntry idf := by
  unfold per_instance_trend_entries
  simp only [List.append_assoc]
  refine ⟨?_, ?_, ?_, ?_, ?_, ?_, ?_, ?_, ?_, ?_⟩
  · rw [lookup_optSeg_append_self]
    cases cpuTrendEntry idf with
    | some j => rfl
    | none =>
      rw [Option.none_or,
        lookup_optSeg_append_ne _ _ _ _ (by decide),
        lookup_optSeg_append_ne _ _ _ _ (by decide),
        lookup_optSeg_append_ne _ _ _ _ (by decide),
        lookup_optSeg_append_ne _ _ _ _ (by decide),
        lookup_optSeg_append_ne _ _ _ _ (by decide),
        lookup_optSeg_append_ne _ _ _ _ (by decide),
        lookup_optSeg_append_ne _ _ _ _ (by decide),
        lookup_optSeg_append_ne _ _ _ _ (by decide),
        lookup_optSeg_ne _ _ _ (by decide)]
  · rw [lookup_optSeg_append_ne _ _ _ _ (by decide), lookup_optSeg_append_self]
    cases memoryTrendEntry idf with
    | some j => rfl
    | none =>
      rw [Option.none_or,
        lookup_optSeg_append_ne _ _ _ _ (by decide),
        lookup_optSeg_append_ne _ _ _ _ (by decide),
        lookup_optSeg_append_ne _ _ _ _ (by decide),
        lookup_optSeg_append_ne _ _ _ _ (by decide),
        lookup_optSeg_append_ne _ _ _ _ (by decide),
        lookup_optSeg_append_ne _ _ _ _ (by decide),
        lookup_optSeg_append_ne _ _ _ _ (by decide),
        lookup_optSeg_ne _ _ _ (by decide)]
  · rw [lookup_optSeg_append_ne _ _ _ _ (by decide),
      lookup_optSeg_append_ne _ _ _ _ (by decide), lookup_optSeg_append_self]
    cases costTrendEntry idf with
    | some j => rfl
    | none =>
      rw [Option.none_or,
        lookup_optSeg_append_ne _ _ _ _ (by decide),
        lookup_optSeg_append_ne _ _ _ _ (by decide),
        lookup_optSeg_append_ne _ _ _ _ (by decide),
        lookup_optSeg_append_ne _ _ _ _ (by decide),
        lookup_optSeg_append_ne _ _ _ _ (by decide),
        lookup_optSeg_append_ne _ _ _ _ (by decide),
        lookup_optSeg_ne _ _ _ (by decide)]
  · rw [lookup_optSeg_append_ne _ _ _ _ (by decide),
      lookup_optSeg_append_ne _ _ _ _ (by decide),
      lookup_optSeg_append_ne _ _ _ _ (by decide), lookup_optSeg_append_self]
    cases uptimeTrendEntry idf with
    | some j => rfl
    | none =>
      rw [Option.none_or,
        lookup_optSeg_append_ne _ _ _ _ (by decide),
        lookup_optSeg_append_ne _ _ _ _ (by decide),
        lookup_optSeg_append_ne _ _ _ _ (by decide),
        lookup_optSeg_append_ne _ _ _ _ (by decide),
        lookup_optSeg_append_ne _ _ _ _ (by decide),
        lookup_optSeg_ne _ _ _ (by decide)]
  · rw [lookup_optSeg_append_ne _ _ _ _ (by decide),
      lookup_optSeg_append_ne _ _ _ _ (by decide),
      lookup_optSeg_append_ne _ _ _ _ (by decide),
      lookup_optSeg_append_ne _ _ _ _ (by decide), lookup_optSeg_append_self]
    cases networkTrendEntry idf with
    | some j => rfl
    | none =>
      rw [Option.none_or,
        lookup_optSeg_append_ne _ _ _ _ (by decide),
        lookup_optSeg_append_ne _ _ _ _ (by decide),
        lookup_optSeg_append_ne _ _ _ _ (by decide),
        lookup_optSeg_append_ne _ _ _ _ (by decide),
        lookup_optSeg_ne _ _ _ (by decide)]
  · rw [lookup_optSeg_append_ne _ _ _ _ (by decide),
      lookup_optSeg_append_ne _ _ _ _ (by decide),
      lookup_optSeg_append_ne _ _ _ _ (by decide),
      lookup_optSeg_append_ne _ _ _ _ (by decide),
      lookup_optSeg_append_ne _ _ _ _ (by decide), lookup_optSeg_append_self]
    cases diskReadTrendEntry idf with
    | some j => rfl
    | none =>
      rw [Option.none_or,
        lookup_optSeg_append_ne _ _ _ _ (by decide),
        lookup_optSeg_append_ne _ _ _ _ (by decide),
        lookup_optSeg_append_ne _ _ _ _ (by decide),
        lookup_optSeg_ne _ _ _ (by decide)]
  · rw [lookup_optSeg_append_ne _ _ _ _ (by decide),
      lookup_optSeg_append_ne _ _ _ _ (by decide),
      lookup_optSeg_append_ne _ _ _ _ (by decide),
      lookup_optSeg_append_ne _ _ _ _ (by decide),
      lookup_optSeg_append_ne _ _ _ _ (by decide),
      lookup_optSeg_append_ne _ _ _ _ (by decide), lookup_optSeg_append_self]
    cases diskWriteTrendEntry idf with
    | some j => rfl
    | none =>
      rw [Option.none_or,
        lookup_optSeg_append_ne _ _ _ _ (by decide),
        lookup_optSeg_append_ne _ _ _ _ (by decide),
        lookup_optSeg_ne _ _ _ (by decide)]
  · rw [lookup_optSeg_append_ne _ _ _ _ (by decide),
      lookup_optSeg_append_ne _ _ _ _ (by decide),
      lookup_optSeg_append_ne _ _ _ _ (by decide),
      lookup_optSeg_append_ne _ _ _ _ (by decide),
      lookup_optSeg_append_ne _ _ _ _ (by decide),
      lookup_optSeg_append_ne _ _ _ _ (by decide),
      lookup_optSeg_append_ne _ _ _ _ (by decide), lookup_optSeg_append_self]
    cases ingressTrendEntry idf with
    | some j => rfl
    | none =>
      rw [Option.none_or,
        lookup_optSeg_append_ne _ _ _ _ (by decide),
        lookup_optSeg_ne _ _ _ (by decide)]
  · rw [lookup_optSeg_append_ne _ _ _ _ (by decide),
      lookup_optSeg_append_ne _ _ _ _ (by decide),
      lookup_optSeg_append_ne _ _ _ _ (by decide),
      lookup_optSeg_append_ne _ _ _ _ (by decide),
      lookup_optSeg_append_ne _ _ _ _ (by decide),
      lookup_optSeg_append_ne _ _ _ _ (by decide),
      lookup_optSeg_append_ne _ _ _ _ (by decide),
      lookup_optSeg_append_ne _ _ _ _ (by decide), lookup_optSeg_append_self]
    cases egressTrendEntry idf with
    | some j => rfl
    | none =>
      rw [Option.none_or, lookup_optSeg_ne _ _ _ (by decide)]
  · rw [lookup_optSeg_append_ne _ _ _ _ (by decide),
      lookup_optSeg_append_ne _ _ _ _ (by decide),
      lookup_optSeg_append_ne _ _ _ _ (by decide),
      lookup_optSeg_append_ne _ _ _ _ (by decide),
      lookup_optSeg_append_ne _ _ _ _ (by decide),
      lookup_optSeg_append_ne _ _ _ _ (by decide),
      lookup_optSeg_append_ne _ _ _ _ (by decide),
      lookup_optSeg_append_ne _ _ _ _ (by decide),
      lookup_optSeg_append_ne _ _ _ _ (by decide), lookup_optSeg_self]

/-- C9 (amended).  In the per-instance trend analysis, a metric's entry is
present exactly when its column has at least one non-null value for the
instance; CPU, memory, cost and uptime report mean/median/min/max/std plus the
trend label (cost additionally a total); network traffic reports
total/mean/median/min/max daily gigabytes plus the trend; disk read and disk
write report total/mean/median daily gigabytes plus the trend; ingress and
egress report total/mean daily gigabytes plus the trend; cost-per-CPU reports
mean/median/min/max plus the trend; byte totals are converted to gigabytes by
dividing by 2^30. -/
theorem per_instance_trend_report_shapes (idf : List AggRow) :
    ((((per_instance_trend_entries idf).lookup "cpu_utilization").isSome = true) ↔
      (idf.map (·.cpu_utilization_mean)).filterMap id ≠ []) ∧
    (∀ j, (per_instance_trend_entries idf).lookup "cpu_utilization" = some j →
      jKeys j = ["mean", "median", "min", "max", "std", "trend"] ∧
      objLookup j "trend" = some (J.str (get_trend_direction (idf.map (·.cpu_utilization_mean)))) ∧
      objLookup j "mean" = some (J.num (mean ((idf.map (·.cpu_utilization_mean)).filterMap id)))) ∧
    ((((per_instance_trend_entries idf).lookup "memory_usage_gb").isSome = true) ↔
      (idf.map (·.memory_used_gb_mean)).filterMap id ≠ []) ∧
    (∀ j, (per_instance_trend_entries idf).lookup "memory_usage_gb" = some j →
      jKeys j = ["mean", "median", "min", "max", "std", "trend"] ∧
      objLookup j "trend" = some (J.str (get_trend_direction (idf.map (·.memory_used_gb_mean)))) ∧
      objLookup j "mean" = some (J.num (mean ((idf.map (·.memory_used_gb_mean)).filterMap id)))) ∧
    ((((per_instance_trend_entries idf).lookup "cost").isSome = true) ↔
      (idf.map (·.cost_usd_sum)).filterMap id ≠ []) ∧
    (∀ j, (per_instance_trend_entries idf).lookup "cost" = some j →
      jKeys j = ["total", "mean_daily", "median_daily", "min_daily", "max_daily", "std", "trend"] ∧
      objLookup j "trend" = some (J.str (get_trend_direction (idf.map (·.cost_usd_sum)))) ∧
      objLookup j "total" = some (J.num (((idf.map (·.cost_usd_sum)).filterMap id).sum))) ∧
    ((((per_instance_trend_entries idf).lookup "uptime_fraction").isSome = true) ↔
      (idf.map (·.uptime_fraction_mean)).filterMap id ≠ []) ∧
    (∀ j, (per_instance_trend_entries idf).lookup "uptime_fraction" = some j →
      jKeys j = ["mean", "median", "min", "max", "std", "trend"] ∧
      objLookup j "trend" = some (J.str (get_trend_direction (idf.map (·.uptime_fraction_mean)))) ∧
      objLookup j "mean" = some (J.num (mean ((idf.map (·.uptime_fraction_mean)).filterMap id)))) ∧
    ((((per_instance_trend_entries idf).lookup "network_traffic").isSome = true) ↔
      (idf.map (·.network_total_bytes_sum)).filterMap id ≠ []) ∧
    (∀ j, (per_instance_trend_entries idf).lookup "network_traffic" = some j →
      jKeys j = ["total_gb", "mean_daily_gb", "median_daily_gb", "min_daily_gb", "max_daily_gb", "trend"] ∧
      objLookup j "trend" = some (J.str (get_trend_direction (idf.map (·.network_total_bytes_sum)))) ∧
      objLookup j "total_gb" = some (J.num (((idf.map (·.network_total_bytes_sum)).filterMap id).sum / 1024 ^ 3))) ∧
    ((((per_instance_trend_entries idf).lookup "disk_read").isSome = true) ↔
      (idf.map (·.disk_read_bytes_sum)).filterMap id ≠ []) ∧
    (∀ j, (per_instance_trend_entries idf).lookup "disk_read" = some j →
      jKeys j = ["total_gb", "mean_daily_gb", "median_daily_gb", "trend"] ∧
      objLookup j "trend" = some (J.str (get_trend_direction (idf.map (·.disk_read_bytes_sum)))) ∧
      objLookup j "total_gb" = some (J.num (((idf.map (·.disk_read_bytes_sum)).filterMap id).sum / 1024 ^ 3))) ∧
    ((((per_instance_trend_entries idf).lookup "disk_write").isSome = true) ↔
      (idf.map (·.disk_write_bytes_sum)).filterMap id ≠ []) ∧
    (∀ j, (per_instance_trend_entries idf).lookup "disk_write" = some j →
      jKeys j = ["total_gb", "mean_daily_gb", "median_daily_gb", "trend"] ∧
      objLookup j "trend" = some (J.str (get_trend_direction (idf.map (·.disk_write_bytes_sum)))) ∧
      objLookup j "total_gb" = some (J.num (((idf.map (·.disk_write_bytes_sum)).filterMap id).sum / 1024 ^ 3))) ∧
    ((((per_instance_trend_entries idf).lookup "network_ingress").isSome = true) ↔
      (idf.map (·.ingress_bytes_sum)).filterMap id ≠ []) ∧
    (∀ j, (per_instance_trend_entries idf).lookup "network_ingress" = some j →
      jKeys j = ["total_gb", "mean_daily_gb", "trend"] ∧
      objLookup j "trend" = some (J.str (get_trend_direction (idf.map (·.ingress_bytes_sum)))) ∧
      objLookup j "total_gb" = some (J.num (((idf.map (·.ingress_bytes_sum)).filterMap id).sum / 1024 ^ 3))) ∧
    ((((per_instance_trend_entries idf).lookup "network_egress").isSome = true) ↔
      (idf.map (·.egress_bytes_sum)).filterMap id ≠ []) ∧
    (∀ j, (per_instance_trend_entries idf).lookup "network_egress" = some j →
      jKeys j = ["total_gb", "mean_daily_gb", "trend"] ∧
      objLookup j "trend" = some (J.str (get_trend_direction (idf.map (·.egress_bytes_sum)))) ∧
      objLookup j "total_gb" = some (J.num (((idf.map (·.egress_bytes_sum)).filterMap id).sum / 1024 ^ 3))) ∧
    ((((per_instance_trend_entries idf).lookup "cost_efficiency").isSome = true) ↔
      (idf.map (·.cost_per_cpu_mean)).filterMap id ≠ []) ∧
    (∀ j, (per_instance_trend_entries idf).lookup "cost_efficiency" = some j →
      jKeys j = ["mean_cost_per_cpu", "median_cost_per_cpu", "min_cost_per_cpu", "max_cost_per_cpu", "trend"] ∧
      objLookup j "trend" = some (J.str (get_trend_direction (idf.map (·.cost_per_cpu_mean)))) ∧
      objLookup j "mean_cost_per_cpu" = some (J.num (mean ((idf.map (·.cost_per_cpu_mean)).filterMap id)))) := by
  obtain ⟨h1, h2, h3, h4, h5, h6, h7, h8, h9, h10⟩ := per_instance_trend_lookups idf
  refine ⟨?_, ?_, ?_, ?_, ?_, ?_, ?_, ?_, ?_, ?_, ?_, ?_, ?_, ?_, ?_, ?_, ?_, ?_, ?_, ?_⟩
  · rw [h1]
    simp only [cpuTrendEntry]
    by_cases hd : (idf.map (·.cpu_utilization_mean)).filterMap id = []
    · simp [hd]
    · simp [hd]
  · intro j hj
    rw [h1] at hj
    simp only [cpuTrendEntry] at hj
    split at hj
    · exact absurd hj (by simp)
    · cases hj
      exact ⟨rfl, rfl, rfl⟩
  · rw [h2]
    simp only [memoryTrendEntry]
    by_cases hd : (idf.map (·.memory_used_gb_mean)).filterMap id = []
    · simp [hd]
    · simp [hd]
  · intro j hj
    rw [h2] at hj
    simp only [memoryTrendEntry] at hj
    split at hj
    · exact absurd hj (by simp)
    · cases hj
      exact ⟨rfl, rfl, rfl⟩
  · rw [h3]
    simp only [costTrendEntry]
    by_cases hd : (idf.map (·.cost_usd_sum)).filterMap id = []
    · simp [hd]
    · simp [hd]
  · intro j hj
    rw [h3] at hj
    simp only [costTrendEntry] at hj
    split at hj
    · exact absurd hj (by simp)
    · cases hj
      exact ⟨rfl, rfl, rfl⟩
  · rw [h4]
    simp only [uptimeTrendEntry]
    by_cases hd : (idf.map (·.uptime_fraction_mean)).filterMap id = []
    · simp [hd]
    · simp [hd]
  · intro j hj
    rw [h4] at hj
    simp only [uptimeTrendEntry] at hj
    split at hj
    · exact absurd hj (by simp)
    · cases hj
      exact ⟨rfl, rfl, rfl⟩
  · rw [h5]
    simp only [networkTrendEntry]
    by_cases hd : (idf.map (·.network_total_bytes_sum)).filterMap id = []
    · simp [hd]
    · simp [hd]
  · intro j hj
    rw [h5] at hj
    simp only [networkTrendEntry] at hj
    split at hj
    · exact absurd hj (by simp)
    · cases hj
      exact ⟨rfl, rfl, rfl⟩
  · rw [h6]
    simp only [diskReadTrendEntry]
    by_cases hd : (idf.map (·.disk_read_bytes_sum)).filterMap id = []
    · simp [hd]
    · simp [hd]
  · intro j hj
    rw [h6] at hj
    simp only [diskReadTrendEntry] at hj
    split at hj
    · exact absurd hj (by simp)
    · cases hj
      exact ⟨rfl, rfl, rfl⟩
  · rw [h7]
    simp only [diskWriteTrendEntry]
    by_cases hd : (idf.map (·.disk_write_bytes_sum)).filterMap id = []
    · simp [hd]
    · simp [hd]
  · intro j hj
    rw [h7] at hj
    simp only [diskWriteTrendEntry] at hj
    split at hj
    · exact absurd hj (by simp)
    · cases hj
      exact ⟨rfl, rfl, rfl⟩
  · rw [h8]
    simp only [ingressTrendEntry]
    by_cases hd : (idf.map (·.ingress_bytes_sum)).filterMap id = []
    · simp [hd]
    · simp [hd]
  · intro j hj
    rw [h8] at hj
    simp only [ingressTrendEntry] at hj
    split at hj
    · exact absurd hj (by simp)
    · cases hj
      exact ⟨rfl, rfl, rfl⟩
  · rw [h9]
    simp only [egressTrendEntry]
    by_cases hd : (idf.map (·.egress_bytes_sum)).filterMap id = []
    · simp [hd]
    · simp [hd]
  · intro j hj
    rw [h9] at hj
    simp only [egressTrendEntry] at hj
    split at hj
    · exact absurd hj (by simp)
    · cases hj
      exact ⟨rfl, rfl, rfl⟩
  · rw [h10]
    simp only [costEffTrendEntry]
    by_cases hd : (idf.map (·.cost_per_cpu_mean)).filterMap id = []
    · simp [hd]
    · simp [hd]
  · intro j hj
    rw [h10] at hj
    simp only [costEffTrendEntry] at hj
    split at hj
    · exact absurd hj (by simp)
    · cases hj
      exact ⟨rfl, rfl, rfl⟩

/-- An aggregate row with every trend-relevant column populated. -/
def fullAggRow (d : ℕ) : AggRow :=
  { blankAggRow with
    date := d
    instance_id := some ['1']
    cpu_utilization_mean := some (1 / 2)
    memory_used_gb_mean := some 4
    cost_usd_sum := some 5
    uptime_fraction_mean := some (9 / 10)
    network_total_bytes_sum := some (2 ^ 30)
    disk_read_bytes_sum := some (2 ^ 30)
    disk_write_bytes_sum := some (2 ^ 30)
    ingress_bytes_sum := some (2 ^ 29)
    egress_bytes_sum := some (2 ^ 29)
    cost_per_cpu_mean := some 10 }

/-- A two-day instance frame with all ten metric columns present. -/
def trendDemoRows : List AggRow := [fullAggRow 1, fullAggRow 2]

/-- C9 counterexample: on a frame where the egress column is present with
non-null values, the reported `network_egress` entry carries only
`total_gb`, `mean_daily_gb` and `trend` — it has no `median`, `min`, `max` or
`std` statistic, contradicting the claim that every one of the ten metrics is
reported with mean/median/min/max/std. -/
theorem per_instance_trend_egress_lacks_stats :
    ((per_instance_trend_entries trendDemoRows).lookup "network_egress").map jKeys =
      some ["total_gb", "mean_daily_gb", "trend"] ∧
    ("std" : String) ∉ ["total_gb", "mean_daily_gb", "trend"] ∧
    ("median" : String) ∉ ["total_gb", "mean_daily_gb", "trend"] ∧
    ("min" : String) ∉ ["total_gb", "mean_daily_gb", "trend"] ∧
    ("max" : String) ∉ ["total_gb", "mean_daily_gb", "trend"] := by
  refine ⟨?_, by decide, by decide, by decide, by decide⟩
  decide

/-- Witness for C9 (amended) on the populated demo frame: the CPU entry is
present, and the egress entry has exactly the three code keys. -/
theorem per_instance_trend_report_shapes_witness :
    ((per_instance_trend_entries trendDemoRows).lookup "cpu_utilization").isSome = true ∧
    ((per_instance_trend_entries trendDemoRows).lookup "network_egress").map jKeys =
      some ["total_gb", "mean_daily_gb", "trend"] := by
  obtain ⟨c1, c2, c3, c4, c5, c6, c7, c8, c9, c10, c11, c12, c13, c14, c15, c16,
    c17, c18, c19, c20⟩ := per_instance_trend_report_shapes trendDemoRows
  constructor
  · exact c1.mpr (by decide)
  · obtain ⟨j, hj⟩ := Option.isSome_iff_exists.mp (c17.mpr (by decide))
    have hk := c18 j hj
    rw [hj, Option.map_some', hk.1]

/-! ### C10: report shape -/

/-- C10.  For every input batch, the report assembled by `analyze_vm_data`
carries exactly the eight top-level facet keys, in order; every one of the
eight keys is bound; and a facet with nothing to report is an empty
sub-structure rather than an absent key (shown for the anomaly facet: when no
instance has a flagged metric, the `anomalies` key maps to the empty object). -/
theorem analyze_report_shape (events : List RawEvent) :
    (analyze_vm_data events).map Prod.fst =
      ["instance_summary", "overall_stats", "per_instance_analysis",
       "correlation_analysis", "trend_analysis", "cost_analysis",
       "utilization_insights", "anomalies"] ∧
    (∀ name ∈ (["instance_summary", "overall_stats", "per_instance_analysis",
       "correlation_analysis", "trend_analysis", "cost_analysis",
       "utilization_insights", "anomalies"] : List String),
      ∃ v, (analyze_vm_data events).lookup name = some v) ∧
    (detect_anomalies (preprocess_vm_data events) = [] →
      (analyze_vm_data events).lookup "anomalies" = some (J.obj [])) := by
  refine ⟨rfl, ?_, ?_⟩
  · intro name hname
    simp only [List.mem_cons, List.not_mem_nil, or_false] at hname
    rcases hname with rfl | rfl | rfl | rfl | rfl | rfl | rfl | rfl <;> exact ⟨_, rfl⟩
  · intro h
    have hl : (analyze_vm_data events).lookup "anomalies" =
        some (anomaliesJ (preprocess_vm_data events)) := rfl
    rw [hl]
    unfold anomaliesJ
    rw [h]
    rfl

/-- Witness for C10 at the empty batch: all eight keys are present and the
anomaly facet is the empty object. -/
theorem analyze_report_shape_witness :
    (analyze_vm_data []).map Prod.fst =
      ["instance_summary", "overall_stats", "per_instance_analysis",
       "correlation_analysis", "trend_analysis", "cost_analysis",
       "utilization_insights", "anomalies"] ∧
    (analyze_vm_data []).lookup "anomalies" = some (J.obj []) := by
  have h := analyze_report_shape []
  exact ⟨h.1, h.2.2 rfl⟩

end InfraAI
